import Mathlib

/-!
# A shallow embedding of the BlastMidi library (blastmidi.c / blastmidi_utility.h)

The definitions below translate the C sources of the BlastMidi SMF
(Standard MIDI File) decoder into Lean.  Conventions used throughout:

* machine integers become `Nat` (or `Int` where the C uses a signed type with
  a sentinel such as `track : int16_t = -1`); wrap-around of a `uintN_t`
  computation is written as an explicit `% 2^N` exactly where the C value can
  exceed the width;
* C bit operations on these unsigned values are written arithmetically:
  `x << k` is `x * 2^k` (with the width mod where the C type wraps),
  `x >> k` is `x / 2^k`, `x & (2^k - 1)` is `x % 2^k`, and `a | b` is `a + b`
  at the places where the C or-operands occupy disjoint bit ranges (each such
  place is noted in a comment);
* the caller-supplied byte stream callback is modelled as an in-memory byte
  list: a read of `n` bytes succeeds exactly when `n` bytes remain after the
  logical cursor, an absolute seek succeeds exactly when the target offset is
  inside the stream;
* the host is taken to be little endian (`is_little_endian()` returns 1, so
  `blastmidi_initialize` sets `endian_flag = 1`); the `convert_endian_*`
  helpers are modelled with that flag value;
* heap objects (`blastmidi_event` records) live in an explicit heap: an
  association list from numeric ids (the model of pointers) to event records,
  with a fresh-id counter; `NULL` is `Option.none`;
* the unbounded `while` loops of the C (`read_track_events`, the wipe loop)
  are given a fuel parameter; running out of fuel behaves like a failing
  callback (`BLASTMIDI_UNEXPECTEDEND`).  Callers pass more fuel than the
  stream length, so the branch is never taken on the executions studied here.
-/

/-! ## Error codes (enum blastmidi_errors, blastmidi.h) -/

def BLASTMIDI_OK : Nat := 0
def BLASTMIDI_INVALIDPARAM : Nat := 1
def BLASTMIDI_OUTOFMEMORY : Nat := 2
def BLASTMIDI_ALREADYADDED : Nat := 3
def BLASTMIDI_NOTADDED : Nat := 4
def BLASTMIDI_NOTPARTOFTRACK : Nat := 5
def BLASTMIDI_NOCALLBACK : Nat := 6
def BLASTMIDI_INVALIDCHUNK : Nat := 7
def BLASTMIDI_INCOMPLETECHUNK : Nat := 8
def BLASTMIDI_UNEXPECTEDEND : Nat := 9
def BLASTMIDI_WRITINGFAILED : Nat := 10
def BLASTMIDI_INVALID : Nat := 11

/-! ## Event type and subtype constants (blastmidi.h) -/

def BLASTMIDI_CHANNEL_EVENT : Nat := 1
def BLASTMIDI_META_EVENT : Nat := 2
def BLASTMIDI_SYSEX_EVENT : Nat := 3

def BLASTMIDI_CHANNEL_NOTE_OFF : Nat := 8
def BLASTMIDI_CHANNEL_NOTE_ON : Nat := 9
def BLASTMIDI_CHANNEL_NOTE_AFTERTOUCH : Nat := 10
def BLASTMIDI_CHANNEL_CONTROLLER : Nat := 11
def BLASTMIDI_CHANNEL_PROGRAM_CHANGE : Nat := 12
def BLASTMIDI_CHANNEL_CHANNEL_AFTERTOUCH : Nat := 13
def BLASTMIDI_CHANNEL_PITCH_BEND : Nat := 14

def BLASTMIDI_META_SEQUENCE_NUMBER : Nat := 0
def BLASTMIDI_META_TEXT : Nat := 1
def BLASTMIDI_META_COPYRIGHT_NOTICE : Nat := 2
def BLASTMIDI_META_SEQUENCE_OR_TRACK_NAME : Nat := 3
def BLASTMIDI_META_INSTRUMENT_NAME : Nat := 4
def BLASTMIDI_META_LYRICS : Nat := 5
def BLASTMIDI_META_MARKER : Nat := 6
def BLASTMIDI_META_CUE_POINT : Nat := 7
def BLASTMIDI_META_CHANNEL_PFX : Nat := 32
def BLASTMIDI_META_END_OF_TRACK : Nat := 47
def BLASTMIDI_META_SET_TEMPO : Nat := 81
def BLASTMIDI_META_SMPTE_OFFSET : Nat := 84
def BLASTMIDI_META_TIME_SIGNATURE : Nat := 88
def BLASTMIDI_META_KEY_SIGNATURE : Nat := 89
def BLASTMIDI_META_SEQUENCER_SPECIFIC : Nat := 127

/-! ## Bit and endian utilities (blastmidi_utility.h)

`extract_bits_N value a b` extracts bits `a..b` (1 = most significant) of an
`N`-bit value: the C shifts left by `a - 1` (wrapping in the `N`-bit type,
hence the `% 2^N`) and then right by `N - 1 - (b - a)`. -/

def extract_bits_32 (value : Nat) (a b : Nat) : Nat :=
  ((value * 2 ^ (a - 1)) % 2 ^ 32) / 2 ^ (31 - (b - a))

def extract_bits_16 (value : Nat) (a b : Nat) : Nat :=
  ((value * 2 ^ (a - 1)) % 2 ^ 16) / 2 ^ (15 - (b - a))

def extract_bits_8 (value : Nat) (a b : Nat) : Nat :=
  ((value * 2 ^ (a - 1)) % 2 ^ 8) / 2 ^ (7 - (b - a))

/-- Model of `swap_16`: `((x & 0xff) << 8) | ((x & 0xff00) >> 8)`; the two or-operands
occupy disjoint bit ranges, so the `|` is `+`. -/
def swap_16 (x : Nat) : Nat :=
  (x % 256) * 256 + (x / 256) % 256

/-- Model of `swap_32` reverses the four bytes of a 32-bit value (the C does this with
two mask-and-shift lines whose or-operands are disjoint). -/
def swap_32 (x : Nat) : Nat :=
  (x % 256) * 2 ^ 24 + (x / 2 ^ 8 % 256) * 2 ^ 16 +
    (x / 2 ^ 16 % 256) * 2 ^ 8 + x / 2 ^ 24 % 256

/-- Byte-swap on a little-endian host (`endian_flag = 1`), identity otherwise. -/
def convert_endian_16 (x : Nat) (endian_flag : Nat) : Nat :=
  if endian_flag = 1 then swap_16 x else x

def convert_endian_32 (x : Nat) (endian_flag : Nat) : Nat :=
  if endian_flag = 1 then swap_32 x else x

/-! ## The data model (blastmidi.h structures) -/

/-- Where an event's payload pointer points: at the inline two-byte
`small_pool` buffer embedded in the record, or at a separately `malloc`ed
block.  The C distinguishes the two by comparing `data_size` with
`sizeof(small_pool)`; the model keeps the outcome of `allocate_event`'s
branch as an explicit tag. -/
inductive DataLoc where
  | inlinePool : DataLoc
  | heapBlock : DataLoc
deriving DecidableEq, Repr

/-- Model of `struct blastmidi_event`.  `data` holds the payload bytes themselves
(the pointee), `data_loc` records which buffer the C `data` pointer refers
to, and `previous` / `next` are the intrusive list pointers (event ids). -/
structure blastmidi_event where
  track : Int
  time : Nat
  type : Nat
  subtype : Nat
  channel : Int
  data : List Nat
  data_size : Nat
  data_loc : DataLoc
  end_of_sysex : Nat
  previous : Option Nat
  next : Option Nat
deriving DecidableEq, Repr

/-- The allocator: an association list from event ids (pointers) to event
records, plus a fresh-id counter. -/
structure MidiHeap where
  events : List (Nat × blastmidi_event)
  nextId : Nat
deriving DecidableEq, Repr

def emptyHeap : MidiHeap := { events := [], nextId := 0 }

def lookupEvent (h : MidiHeap) (id : Nat) : Option blastmidi_event :=
  (h.events.find? (fun p => p.1 = id)).map (fun p => p.2)

def setEvent (h : MidiHeap) (id : Nat) (ev : blastmidi_event) : MidiHeap :=
  { h with events := h.events.map (fun p => if p.1 = id then (id, ev) else p) }

def modifyEvent (h : MidiHeap) (id : Nat) (f : blastmidi_event → blastmidi_event) : MidiHeap :=
  { h with events := h.events.map (fun p => if p.1 = id then (id, f p.2) else p) }

def allocOnHeap (h : MidiHeap) (ev : blastmidi_event) : MidiHeap × Nat :=
  ({ events := (h.nextId, ev) :: h.events, nextId := h.nextId + 1 }, h.nextId)

def removeEvent (h : MidiHeap) (id : Nat) : MidiHeap :=
  { h with events := h.events.filter (fun p => p.1 ≠ id) }

/-- Model of `struct blastmidi`.  The function-pointer fields become: `data_callback`
is `true` when a callback has been configured (the stream itself is passed
separately to every I/O function), and the allocator pair is the model heap.
The host is little endian, so `endian_flag` would always be `1`; it is
therefore not carried as a field. -/
structure blastmidi where
  data_callback : Bool
  track_count : Nat
  file_type : Nat
  time_type : Nat
  ticks_per_beat : Nat
  SMPTE_frames : Nat
  ticks_per_frame : Nat
  valid : Nat
  tracks : Option (List (Option Nat))
  track_ends : Option (List (Option Nat))
  cursor : Nat
  running_status : Nat
  sysex_continuation : Nat
  heap : MidiHeap
deriving DecidableEq, Repr

/-- Model of `instance->tracks[track_id]` (head pointer of a track). -/
def trackHead (inst : blastmidi) (track_id : Nat) : Option Nat :=
  (inst.tracks.getD []).getD track_id none

/-- Model of `instance->track_ends[track_id]` (tail pointer of a track). -/
def trackEnd (inst : blastmidi) (track_id : Nat) : Option Nat :=
  (inst.track_ends.getD []).getD track_id none

def setTrackHead (inst : blastmidi) (track_id : Nat) (v : Option Nat) : blastmidi :=
  { inst with tracks := inst.tracks.map (fun l => l.set track_id v) }

def setTrackEnd (inst : blastmidi) (track_id : Nat) (v : Option Nat) : blastmidi :=
  { inst with track_ends := inst.track_ends.map (fun l => l.set track_id v) }

/-! ## Byte stream I/O (read_bytes, skip_ahead, skip_backwards, read_byte) -/

/-- The byte the stream holds at offset `i`; the callback stores bytes into a
`uint8_t` buffer, hence the `% 256`. -/
def byteAt (s : List Nat) (i : Nat) : Nat := (s.getD i 0) % 256

/-- Model of `read_bytes`: read `size` bytes at the cursor; on success advance the
cursor, on failure (`size` bytes are not available) report
`BLASTMIDI_UNEXPECTEDEND` and leave the cursor alone. -/
def read_bytes (s : List Nat) (inst : blastmidi) (size : Nat) :
    Nat × blastmidi × List Nat :=
  if inst.cursor + size ≤ s.length then
    (BLASTMIDI_OK, { inst with cursor := inst.cursor + size },
      (List.range size).map (fun i => byteAt s (inst.cursor + i)))
  else
    (BLASTMIDI_UNEXPECTEDEND, inst, [])

def read_byte (s : List Nat) (inst : blastmidi) : Nat × blastmidi × Nat :=
  match read_bytes s inst 1 with
  | (r, inst1, bs) => (r, inst1, bs.getD 0 0)

/-- Model of `skip_ahead`: absolute seek to `cursor + size`. -/
def skip_ahead (s : List Nat) (inst : blastmidi) (size : Nat) : Nat × blastmidi :=
  if inst.cursor + size ≤ s.length then
    (BLASTMIDI_OK, { inst with cursor := inst.cursor + size })
  else
    (BLASTMIDI_UNEXPECTEDEND, inst)

/-- Model of `skip_backwards`: absolute seek to `cursor - size` (the C asserts
`cursor >= size`; a backwards target is always inside the stream). -/
def skip_backwards (s : List Nat) (inst : blastmidi) (size : Nat) : Nat × blastmidi :=
  if inst.cursor - size ≤ s.length then
    (BLASTMIDI_OK, { inst with cursor := inst.cursor - size })
  else
    (BLASTMIDI_UNEXPECTEDEND, inst)

/-- Little-endian value of up to two bytes sitting in a `uint16_t` buffer. -/
def le_16 (bs : List Nat) : Nat := bs.getD 0 0 + 256 * bs.getD 1 0

/-- Little-endian value of up to four bytes sitting in a `uint32_t` buffer. -/
def le_32 (bs : List Nat) : Nat :=
  bs.getD 0 0 + 256 * bs.getD 1 0 + 2 ^ 16 * bs.getD 2 0 + 2 ^ 24 * bs.getD 3 0

/-- Model of `read_16_bit`: two wire bytes land in a `uint16_t` and are converted from
big endian. -/
def read_16_bit (s : List Nat) (inst : blastmidi) : Nat × blastmidi × Nat :=
  match read_bytes s inst 2 with
  | (r, inst1, bs) =>
    if r = BLASTMIDI_OK then (BLASTMIDI_OK, inst1, convert_endian_16 (le_16 bs) 1)
    else (BLASTMIDI_UNEXPECTEDEND, inst1, 0)

/-- Model of `read_32_bit`. -/
def read_32_bit (s : List Nat) (inst : blastmidi) : Nat × blastmidi × Nat :=
  match read_bytes s inst 4 with
  | (r, inst1, bs) =>
    if r = BLASTMIDI_OK then (BLASTMIDI_OK, inst1, convert_endian_32 (le_32 bs) 1)
    else (BLASTMIDI_UNEXPECTEDEND, inst1, 0)

/-- Model of `read_24_bit`: three wire bytes land in the low three bytes of a zeroed
`uint32_t`, are byte-swapped and the top 24 bits extracted. -/
def read_24_bit (s : List Nat) (inst : blastmidi) : Nat × blastmidi × Nat :=
  match read_bytes s inst 3 with
  | (r, inst1, bs) =>
    if r = BLASTMIDI_OK then
      (BLASTMIDI_OK, inst1, extract_bits_32 (convert_endian_32 (le_32 bs) 1) 1 24)
    else (BLASTMIDI_UNEXPECTEDEND, inst1, 0)

/-! ## Variable-length quantities (read_variable_number) -/

/-- The body of `read_variable_number`'s `for (i = 0; i < 4; i++)` loop,
counted by remaining iterations (`fuel = 4 - i`, so `i == 3` is `fuel = 1`).
The accumulation `(*buffer << 7) | (current & 0x7f)` wraps in `uint32_t`
and its or-operands are disjoint, giving
`(acc * 128) % 2^32 + current % 128`. -/
def rvn_go (s : List Nat) : Nat → blastmidi → Nat → Nat × blastmidi × Nat
  | 0, inst, acc => (BLASTMIDI_OK, inst, acc)
  | fuel + 1, inst, acc =>
    match read_byte s inst with
    | (r, inst1, current) =>
      if r ≠ BLASTMIDI_OK then (r, inst1, acc)
      else
        -- keep_going = extract_bits_8(current, 1, 1)
        let keep_going := extract_bits_8 current 1 1
        if keep_going = 1 ∧ fuel = 0 then (BLASTMIDI_INVALIDCHUNK, inst1, acc)
        else
          let acc1 := (acc * 128) % 2 ^ 32 + current % 128
          if keep_going = 0 then (BLASTMIDI_OK, inst1, acc1)
          else rvn_go s fuel inst1 acc1

def read_variable_number (s : List Nat) (inst : blastmidi) : Nat × blastmidi × Nat :=
  rvn_go s 4 inst 0

/-! ## Event allocation and factories -/

/-- Model of `allocate_event`.  `data = none` models a NULL source pointer (the C then
leaves the payload bytes uninitialized; the model zero-fills them — every
caller that passes NULL overwrites the buffer before the event escapes).
When `0 < data_size ≤ sizeof(small_pool) = 2` the payload pointer is aimed at
the inline pool, otherwise a separate block of `data_size` bytes is
`malloc`ed (note: also when `data_size = 0`).  Allocation never fails in the
model. -/
def allocate_event (inst : blastmidi) (type subtype : Nat)
    (data : Option (List Nat)) (data_size : Nat) : Nat × blastmidi × Nat :=
  let loc := if 0 < data_size ∧ data_size ≤ 2 then DataLoc.inlinePool else DataLoc.heapBlock
  let content := match data with
    | some d => d.take data_size
    | none => List.replicate data_size 0
  let ev : blastmidi_event :=
    { track := -1, time := 0, type := type, subtype := subtype, channel := -1,
      data := content, data_size := data_size, data_loc := loc,
      end_of_sysex := 0, previous := none, next := none }
  match allocOnHeap inst.heap ev with
  | (h, id) => (BLASTMIDI_OK, { inst with heap := h }, id)

/-- Model of `blastmidi_event_free` (heap effect): the separate payload block is
released exactly when `event->data && event->data_size > sizeof(small_pool)`;
every event built by `allocate_event` has a non-NULL `data`, so the pointer
test is the `data_size` test.  The record itself is always released. -/
def blastmidi_event_free (inst : blastmidi) (id : Nat) : blastmidi :=
  { inst with heap := removeEvent inst.heap id }

/-- Whether `blastmidi_event_free` would pass `event->data` to
`free_function` for this event (`event->data && event->data_size > 2`). -/
def free_releases_payload (ev : blastmidi_event) : Bool :=
  decide (2 < ev.data_size)

/-- The value `blastmidi_event_create_channel_event` stores for a pitch-bend
event: with `p1' = extract_bits_8(param_1, 2, 8)` and likewise `p2'`, the C
computes `temp16 = ((p1' << 8) | (p2' << 1)) >> 1` in `uint16_t` arithmetic
(the or-operands are disjoint: the first is a multiple of 256, the second is
below 256). -/
def pitch_bend_temp16 (param_1 param_2 : Nat) : Nat :=
  let p1 := extract_bits_8 param_1 2 8
  let p2 := extract_bits_8 param_2 2 8
  ((p1 * 256) % 2 ^ 16 + p2 * 2) / 2

/-- Model of `blastmidi_event_create_channel_event`.  The two-data-byte subtypes store
`[param_1, param_2]`; pitch bend stores the native (little-endian) bytes of
`pitch_bend_temp16`; the one-data-byte subtypes store `[param_1]`; anything
else is `BLASTMIDI_INVALIDPARAM`. -/
def blastmidi_event_create_channel_event (inst : blastmidi) (channel subtype param_1 param_2 : Nat) :
    Nat × blastmidi × Option Nat :=
  let packed :=
    if subtype = BLASTMIDI_CHANNEL_NOTE_OFF ∨ subtype = BLASTMIDI_CHANNEL_NOTE_ON ∨
        subtype = BLASTMIDI_CHANNEL_NOTE_AFTERTOUCH ∨ subtype = BLASTMIDI_CHANNEL_CONTROLLER then
      some ([param_1 % 256, param_2 % 256], 2)
    else if subtype = BLASTMIDI_CHANNEL_PITCH_BEND then
      let t := pitch_bend_temp16 param_1 param_2
      some ([t % 256, t / 256], 2)
    else if subtype = BLASTMIDI_CHANNEL_PROGRAM_CHANGE ∨
        subtype = BLASTMIDI_CHANNEL_CHANNEL_AFTERTOUCH then
      some ([param_1 % 256], 1)
    else none
  match packed with
  | none => (BLASTMIDI_INVALIDPARAM, inst, none)
  | some (bytes, data_size) =>
    match allocate_event inst BLASTMIDI_CHANNEL_EVENT subtype (some bytes) data_size with
    | (r, inst1, id) =>
      if r ≠ BLASTMIDI_OK then (r, inst1, none)
      else (BLASTMIDI_OK, { inst1 with heap := (modifyEvent inst1.heap id
              (fun ev => { ev with channel := (channel : Int) })) }, some id)

/-- Native (little-endian host) `uint16_t` read back from the first two
payload bytes — how the header tells users to interpret a pitch-bend
payload. -/
def native_16 (bs : List Nat) : Nat := bs.getD 0 0 + 256 * bs.getD 1 0

/-- Model of `blastmidi_event_create_meta_sequence_number_event`: the two bytes of the
`uint16_t` argument in host (little-endian) memory order. -/
def blastmidi_event_create_meta_sequence_number_event (inst : blastmidi) (sequence_number : Nat) :
    Nat × blastmidi × Option Nat :=
  let v := sequence_number % 2 ^ 16
  match allocate_event inst BLASTMIDI_META_EVENT BLASTMIDI_META_SEQUENCE_NUMBER
      (some [v % 256, v / 256]) 2 with
  | (r, inst1, id) => if r ≠ BLASTMIDI_OK then (r, inst1, none) else (BLASTMIDI_OK, inst1, some id)

/-- Model of `blastmidi_event_create_meta_tempo_event`: the four bytes of the
`uint32_t` argument in host (little-endian) memory order. -/
def blastmidi_event_create_meta_tempo_event (inst : blastmidi) (tempo : Nat) :
    Nat × blastmidi × Option Nat :=
  let v := tempo % 2 ^ 32
  match allocate_event inst BLASTMIDI_META_EVENT BLASTMIDI_META_SET_TEMPO
      (some [v % 256, v / 256 % 256, v / 2 ^ 16 % 256, v / 2 ^ 24]) 4 with
  | (r, inst1, id) => if r ≠ BLASTMIDI_OK then (r, inst1, none) else (BLASTMIDI_OK, inst1, some id)

/-- The subtypes `blastmidi_event_create_meta_data_event` accepts. -/
def is_meta_data_subtype (t : Nat) : Bool :=
  t = BLASTMIDI_META_TEXT ∨ t = BLASTMIDI_META_COPYRIGHT_NOTICE ∨
    t = BLASTMIDI_META_SEQUENCE_OR_TRACK_NAME ∨ t = BLASTMIDI_META_INSTRUMENT_NAME ∨
    t = BLASTMIDI_META_LYRICS ∨ t = BLASTMIDI_META_MARKER ∨
    t = BLASTMIDI_META_CUE_POINT ∨ t = BLASTMIDI_META_SEQUENCER_SPECIFIC

def blastmidi_event_create_meta_data_event (inst : blastmidi) (subtype : Nat)
    (data : Option (List Nat)) (data_size : Nat) : Nat × blastmidi × Option Nat :=
  if is_meta_data_subtype subtype then
    match allocate_event inst BLASTMIDI_META_EVENT subtype data data_size with
    | (r, inst1, id) => if r ≠ BLASTMIDI_OK then (r, inst1, none) else (BLASTMIDI_OK, inst1, some id)
  else (BLASTMIDI_INVALIDPARAM, inst, none)

def blastmidi_event_create_meta_midi_channel_prefix_event (inst : blastmidi) (channel : Nat) :
    Nat × blastmidi × Option Nat :=
  match allocate_event inst BLASTMIDI_META_EVENT BLASTMIDI_META_CHANNEL_PFX
      (some [channel % 256]) 1 with
  | (r, inst1, id) => if r ≠ BLASTMIDI_OK then (r, inst1, none) else (BLASTMIDI_OK, inst1, some id)

def blastmidi_event_create_meta_time_signature_event (inst : blastmidi)
    (numerator denominator metronome thirtyseconds_per_24_signals : Nat) :
    Nat × blastmidi × Option Nat :=
  match allocate_event inst BLASTMIDI_META_EVENT BLASTMIDI_META_TIME_SIGNATURE
      (some [numerator % 256, denominator % 256, metronome % 256,
          thirtyseconds_per_24_signals % 256]) 4 with
  | (r, inst1, id) => if r ≠ BLASTMIDI_OK then (r, inst1, none) else (BLASTMIDI_OK, inst1, some id)

/-- Model of `key` is an `int8_t`; its byte is stored. -/
def blastmidi_event_create_meta_key_signature_event (inst : blastmidi) (key : Int) (scale : Nat) :
    Nat × blastmidi × Option Nat :=
  match allocate_event inst BLASTMIDI_META_EVENT BLASTMIDI_META_KEY_SIGNATURE
      (some [(key.emod 256).toNat, scale % 256]) 2 with
  | (r, inst1, id) => if r ≠ BLASTMIDI_OK then (r, inst1, none) else (BLASTMIDI_OK, inst1, some id)

def blastmidi_event_create_sysex_event (inst : blastmidi) (data : Option (List Nat))
    (data_size : Nat) (end_of_sysex : Nat) : Nat × blastmidi × Option Nat :=
  match allocate_event inst BLASTMIDI_SYSEX_EVENT 0 data data_size with
  | (r, inst1, id) =>
    if r ≠ BLASTMIDI_OK then (r, inst1, none)
    else (BLASTMIDI_OK, { inst1 with heap := (modifyEvent inst1.heap id
            (fun ev => { ev with end_of_sysex := end_of_sysex })) }, some id)

/-! ## Track list mutation (blastmidi_add_event family, removal, traversal)

These public functions take the instance as an `Option` (`none` models a NULL
instance pointer) and return the — possibly updated — instance next to the
error code, mirroring mutation through the pointer.  The event argument is an
`Option Nat` (`none` models a NULL event pointer).  Looking up an id that is
not on the heap would be a wild pointer dereference in the C; the model
returns `BLASTMIDI_INVALIDPARAM` on that artifact branch, which no execution
studied here reaches. -/

def blastmidi_add_event (inst? : Option blastmidi) (track_id : Nat) (event? : Option Nat)
    (delta_time : Nat) (add_after : Option Nat) : Nat × Option blastmidi :=
  match inst? with
  | none => (BLASTMIDI_INVALIDPARAM, none)
  | some inst =>
    match event? with
    | none => (BLASTMIDI_INVALIDPARAM, some inst)
    | some evId =>
      match lookupEvent inst.heap evId with
      | none => (BLASTMIDI_INVALIDPARAM, some inst)
      | some ev =>
        if ev.track ≠ -1 then (BLASTMIDI_ALREADYADDED, some inst)
        else if track_id ≥ inst.track_count then (BLASTMIDI_INVALIDPARAM, some inst)
        else
          -- event->track = track_id; event->time = delta_time;
          let inst := { inst with heap := (setEvent inst.heap evId
              { ev with track := (track_id : Int), time := delta_time }) }
          match add_after with
          | some afterId =>
            match lookupEvent inst.heap afterId with
            | none => (BLASTMIDI_INVALIDPARAM, some inst)
            | some afterEv =>
              -- old_next = add_after->next; add_after->next = event;
              -- event->previous = add_after; event->next = old_next;
              -- (the C never updates old_next->previous)
              let old_next := afterEv.next
              let inst := { inst with heap := (setEvent inst.heap afterId
                  { afterEv with next := some evId }) }
              let inst := { inst with heap := (modifyEvent inst.heap evId
                  (fun e => { e with previous := some afterId, next := old_next })) }
              let inst := if trackEnd inst track_id = some afterId then
                  setTrackEnd inst track_id (some evId)
                else inst
              (BLASTMIDI_OK, some inst)
          | none =>
            -- old_beginning = instance->tracks[track_id];
            -- event->previous = NULL; event->next = old_beginning;
            -- instance->tracks[track_id] = event;
            -- (the C never updates old_beginning->previous)
            let old_beginning := trackHead inst track_id
            let inst := { inst with heap := (modifyEvent inst.heap evId
                (fun e => { e with previous := none, next := old_beginning })) }
            let inst := setTrackHead inst track_id (some evId)
            let inst := if trackEnd inst track_id = none then
                setTrackEnd inst track_id (some evId)
              else inst
            (BLASTMIDI_OK, some inst)

def blastmidi_add_event_to_beginning_of_track (inst? : Option blastmidi) (track_id : Nat)
    (event? : Option Nat) (delta_time : Nat) : Nat × Option blastmidi :=
  match inst? with
  | none => (BLASTMIDI_INVALIDPARAM, none)
  | some inst =>
    match event? with
    | none => (BLASTMIDI_INVALIDPARAM, some inst)
    | some evId =>
      match lookupEvent inst.heap evId with
      | none => (BLASTMIDI_INVALIDPARAM, some inst)
      | some ev =>
        if ev.track ≠ -1 then (BLASTMIDI_ALREADYADDED, some inst)
        else if track_id ≥ inst.track_count then (BLASTMIDI_INVALIDPARAM, some inst)
        else blastmidi_add_event (some inst) track_id (some evId) delta_time none

def blastmidi_add_event_to_end_of_track (inst? : Option blastmidi) (track_id : Nat)
    (event? : Option Nat) (delta_time : Nat) : Nat × Option blastmidi :=
  match inst? with
  | none => (BLASTMIDI_INVALIDPARAM, none)
  | some inst =>
    match event? with
    | none => (BLASTMIDI_INVALIDPARAM, some inst)
    | some evId =>
      match lookupEvent inst.heap evId with
      | none => (BLASTMIDI_INVALIDPARAM, some inst)
      | some ev =>
        if ev.track ≠ -1 then (BLASTMIDI_ALREADYADDED, some inst)
        else if track_id ≥ inst.track_count then (BLASTMIDI_INVALIDPARAM, some inst)
        else blastmidi_add_event (some inst) track_id (some evId) delta_time
          (trackEnd inst track_id)

def blastmidi_remove_event_from_track (inst? : Option blastmidi) (track_id : Nat)
    (event? : Option Nat) : Nat × Option blastmidi :=
  match inst? with
  | none => (BLASTMIDI_INVALIDPARAM, none)
  | some inst =>
    if track_id ≥ inst.track_count then (BLASTMIDI_INVALIDPARAM, some inst)
    else
      match event? with
      | none => (BLASTMIDI_INVALIDPARAM, some inst)
      | some evId =>
        match lookupEvent inst.heap evId with
        | none => (BLASTMIDI_INVALIDPARAM, some inst)
        | some ev =>
          if ev.track = -1 then (BLASTMIDI_NOTADDED, some inst)
          else if ev.track ≠ (track_id : Int) then (BLASTMIDI_NOTPARTOFTRACK, some inst)
          else
            let previous := ev.previous
            let next := ev.next
            let inst := match previous with
              | some pId => { inst with heap := (modifyEvent inst.heap pId
                  (fun e => { e with next := next })) }
              | none => inst
            let inst := match next with
              | some nId => { inst with heap := (modifyEvent inst.heap nId
                  (fun e => { e with previous := previous })) }
              | none => inst
            let inst := if trackHead inst track_id = some evId then
                setTrackHead inst track_id next
              else inst
            let inst := if trackEnd inst track_id = some evId then
                setTrackEnd inst track_id previous
              else inst
            (BLASTMIDI_OK, some (blastmidi_event_free inst evId))

/-- Forward traversal from a head pointer along `next` (fuel-bounded walk of
the intrusive list); returns the visited event ids in order. -/
def forward_list (h : MidiHeap) : Option Nat → Nat → List Nat
  | _, 0 => []
  | none, _ => []
  | some id, fuel + 1 =>
    match lookupEvent h id with
    | none => [id]
    | some ev => id :: forward_list h ev.next fuel

/-- Backward traversal from a tail pointer along `previous`. -/
def backward_list (h : MidiHeap) : Option Nat → Nat → List Nat
  | _, 0 => []
  | none, _ => []
  | some id, fuel + 1 =>
    match lookupEvent h id with
    | none => [id]
    | some ev => id :: backward_list h ev.previous fuel

/-! ## Track and document teardown (blastmidi_whipe_track, reset) -/

/-- The wipe loop: `while (current) { next = current->next; free(current);
current = next; }`, fueled by the heap size (each step frees one event). -/
def whipe_go (s_inst : blastmidi) : Option Nat → Nat → blastmidi
  | none, _ => s_inst
  | some _, 0 => s_inst
  | some id, fuel + 1 =>
    match lookupEvent s_inst.heap id with
    | none => s_inst
    | some ev => whipe_go (blastmidi_event_free s_inst id) ev.next fuel

/-- Model of `blastmidi_whipe_track`: frees every event reachable from
`instance->tracks[track]`.  Note that the C leaves `tracks[track]` and
`track_ends[track]` untouched. -/
def blastmidi_whipe_track (inst : blastmidi) (track : Nat) : blastmidi :=
  if track ≥ inst.track_count then inst
  else whipe_go inst (trackHead inst track) (inst.heap.events.length + 1)

def whipe_all_go (inst : blastmidi) : Nat → Nat → blastmidi
  | 0, _ => inst
  | n + 1, i => whipe_all_go (blastmidi_whipe_track inst i) n (i + 1)

/-- Model of `reset`: wipe every track and release the head/tail arrays (when
present), then clear every format, validity and transient-parse field. -/
def reset (inst : blastmidi) : blastmidi :=
  let inst := match inst.tracks with
    | some _ => { whipe_all_go inst inst.track_count 0 with tracks := none }
    | none => inst
  let inst := match inst.track_ends with
    | some _ => { inst with track_ends := none }
    | none => inst
  { inst with
      track_count := 0, file_type := 0, time_type := 0, ticks_per_beat := 0,
      SMPTE_frames := 0, ticks_per_frame := 0, valid := 0, cursor := 0,
      running_status := 0, sysex_continuation := 0 }

/-- Model of `allocate_tracks`: zeroed head and tail arrays of `track_count` slots
(allocation never fails in the model). -/
def allocate_tracks (inst : blastmidi) : blastmidi :=
  { inst with
      tracks := some (List.replicate inst.track_count none),
      track_ends := some (List.replicate inst.track_count none) }

/-! ## The decode state machine -/

/-- Helper for the C pattern `read_bytes(instance, event->data, size)`:
store freshly read bytes into an event's payload buffer. -/
def setEventData (inst : blastmidi) (id : Nat) (bs : List Nat) : blastmidi :=
  { inst with heap := (modifyEvent inst.heap id (fun ev => { ev with data := bs })) }

/-- Model of `read_meta_event`.  Returns `(error, instance, end_of_track, event)`. -/
def read_meta_event (s : List Nat) (inst : blastmidi) :
    Nat × blastmidi × Bool × Option Nat :=
  match read_byte s inst with
  | (r, inst1, type) =>
    if r ≠ BLASTMIDI_OK then (r, inst1, false, none)
    else
      match read_variable_number s inst1 with
      | (r2, inst2, event_size) =>
        if r2 ≠ BLASTMIDI_OK then (r2, inst2, false, none)
        else if type = BLASTMIDI_META_SEQUENCE_NUMBER then
          match read_16_bit s inst2 with
          | (r3, inst3, sequence_number) =>
            if r3 ≠ BLASTMIDI_OK then (r3, inst3, false, none)
            else
              match blastmidi_event_create_meta_sequence_number_event inst3 sequence_number with
              | (r4, inst4, ev?) =>
                if r4 ≠ BLASTMIDI_OK then (r4, inst4, false, none)
                else (BLASTMIDI_OK, inst4, false, ev?)
        else if is_meta_data_subtype type then
          match blastmidi_event_create_meta_data_event inst2 type none event_size with
          | (r3, inst3, ev?) =>
            if r3 ≠ BLASTMIDI_OK then (r3, inst3, false, none)
            else
              match ev? with
              | none => (BLASTMIDI_INVALIDPARAM, inst3, false, none)
              | some id =>
                match read_bytes s inst3 event_size with
                | (r4, inst4, bs) =>
                  if r4 ≠ BLASTMIDI_OK then (r4, blastmidi_event_free inst4 id, false, none)
                  else (BLASTMIDI_OK, setEventData inst4 id bs, false, some id)
        else if type = BLASTMIDI_META_CHANNEL_PFX then
          match read_byte s inst2 with
          | (r3, inst3, channel) =>
            if r3 ≠ BLASTMIDI_OK then (r3, inst3, false, none)
            else
              match blastmidi_event_create_meta_midi_channel_prefix_event inst3 channel with
              | (r4, inst4, ev?) =>
                if r4 ≠ BLASTMIDI_OK then (r4, inst4, false, none)
                else (BLASTMIDI_OK, inst4, false, ev?)
        else if type = BLASTMIDI_META_END_OF_TRACK then
          (BLASTMIDI_OK, inst2, true, none)
        else if type = BLASTMIDI_META_SET_TEMPO then
          match read_24_bit s inst2 with
          | (r3, inst3, tempo) =>
            if r3 ≠ BLASTMIDI_OK then (r3, inst3, false, none)
            else
              match blastmidi_event_create_meta_tempo_event inst3 tempo with
              | (r4, inst4, ev?) =>
                if r4 ≠ BLASTMIDI_OK then (r4, inst4, false, none)
                else (BLASTMIDI_OK, inst4, false, ev?)
        else if type = BLASTMIDI_META_SMPTE_OFFSET then
          match skip_ahead s inst2 5 with
          | (r3, inst3) =>
            if r3 ≠ BLASTMIDI_OK then (r3, inst3, false, none)
            else (BLASTMIDI_OK, inst3, false, none)
        else if type = BLASTMIDI_META_TIME_SIGNATURE then
          match read_byte s inst2 with
          | (r3, inst3, numerator) =>
            if r3 ≠ BLASTMIDI_OK then (r3, inst3, false, none)
            else
              match read_byte s inst3 with
              | (r4, inst4, denominator) =>
                if r4 ≠ BLASTMIDI_OK then (r4, inst4, false, none)
                else
                  match read_byte s inst4 with
                  | (r5, inst5, metronome) =>
                    if r5 ≠ BLASTMIDI_OK then (r5, inst5, false, none)
                    else
                      match read_byte s inst5 with
                      | (r6, inst6, thirtyseconds) =>
                        if r6 ≠ BLASTMIDI_OK then (r6, inst6, false, none)
                        else
                          match blastmidi_event_create_meta_time_signature_event inst6
                              numerator denominator metronome thirtyseconds with
                          | (r7, inst7, ev?) =>
                            if r7 ≠ BLASTMIDI_OK then (r7, inst7, false, none)
                            else (BLASTMIDI_OK, inst7, false, ev?)
        else if type = BLASTMIDI_META_KEY_SIGNATURE then
          match read_byte s inst2 with
          | (r3, inst3, key) =>
            if r3 ≠ BLASTMIDI_OK then (r3, inst3, false, none)
            else
              match read_byte s inst3 with
              | (r4, inst4, scale) =>
                if r4 ≠ BLASTMIDI_OK then (r4, inst4, false, none)
                else
                  -- the byte read into the int8_t `key` is passed through
                  match blastmidi_event_create_meta_key_signature_event inst4
                      (if key < 128 then (key : Int) else (key : Int) - 256) scale with
                  | (r5, inst5, ev?) =>
                    if r5 ≠ BLASTMIDI_OK then (r5, inst5, false, none)
                    else (BLASTMIDI_OK, inst5, false, ev?)
        else
          match skip_ahead s inst2 event_size with
          | (r3, inst3) =>
            if r3 ≠ BLASTMIDI_OK then (r3, inst3, false, none)
            else (BLASTMIDI_OK, inst3, false, none)

/-- Model of `read_sysex_event`.  Returns `(error, instance, event)`. -/
def read_sysex_event (s : List Nat) (inst : blastmidi) : Nat × blastmidi × Option Nat :=
  match read_variable_number s inst with
  | (r, inst1, event_size) =>
    if r ≠ BLASTMIDI_OK then (r, inst1, none)
    else if event_size = 0 then (BLASTMIDI_OK, inst1, none)
    else
      match blastmidi_event_create_sysex_event inst1 none (event_size - 1) 1 with
      | (r2, inst2, ev?) =>
        if r2 ≠ BLASTMIDI_OK then (r2, inst2, none)
        else
          match ev? with
          | none => (BLASTMIDI_INVALIDPARAM, inst2, none)
          | some id =>
            let step :=
              if 1 < event_size then
                match read_bytes s inst2 (event_size - 1) with
                | (r3, inst3, bs) =>
                  if r3 ≠ BLASTMIDI_OK then (r3, inst3)
                  else (BLASTMIDI_OK, setEventData inst3 id bs)
              else (BLASTMIDI_OK, inst2)
            match step with
            | (r3, inst3) =>
              if r3 ≠ BLASTMIDI_OK then (r3, blastmidi_event_free inst3 id, none)
              else
                match read_byte s inst3 with
                | (r4, inst4, final_byte) =>
                  if r4 ≠ BLASTMIDI_OK then (r4, blastmidi_event_free inst4 id, none)
                  else if final_byte = 0xF7 then
                    -- end of the entire message: clear the continuation flag
                    (BLASTMIDI_OK, { inst4 with sysex_continuation := 0 }, some id)
                  else
                    -- message continues: set the flag, clear end_of_sysex
                    (BLASTMIDI_OK,
                      { inst4 with
                          sysex_continuation := 1,
                          heap := (modifyEvent inst4.heap id
                            (fun ev => { ev with end_of_sysex := 0 })) }, some id)

/-- Model of `read_authorization_sysex_event`. -/
def read_authorization_sysex_event (s : List Nat) (inst : blastmidi) :
    Nat × blastmidi × Option Nat :=
  match read_variable_number s inst with
  | (r, inst1, event_size) =>
    if r ≠ BLASTMIDI_OK then (r, inst1, none)
    else if event_size = 0 then (BLASTMIDI_OK, inst1, none)
    else
      match blastmidi_event_create_sysex_event inst1 none event_size 1 with
      | (r2, inst2, ev?) =>
        if r2 ≠ BLASTMIDI_OK then (r2, inst2, none)
        else
          match ev? with
          | none => (BLASTMIDI_INVALIDPARAM, inst2, none)
          | some id =>
            match read_bytes s inst2 event_size with
            | (r3, inst3, bs) =>
              if r3 ≠ BLASTMIDI_OK then (r3, blastmidi_event_free inst3 id, none)
              else (BLASTMIDI_OK, setEventData inst3 id bs, some id)

/-- The `case 0xF7` dispatch of `read_track_events`: a continuation of a
split sysex message when `sysex_continuation` is set, otherwise a standalone
authorization (escape) sysex event. -/
def read_f7_event (s : List Nat) (inst : blastmidi) : Nat × blastmidi × Option Nat :=
  if inst.sysex_continuation = 1 then read_sysex_event s inst
  else read_authorization_sysex_event s inst

/-- One pass of dispatching on the event-type byte inside
`read_track_events`; returns `(error, instance, end_of_track, event)`. -/
def dispatch_event_type (s : List Nat) (inst : blastmidi) (event_type : Nat) :
    Nat × blastmidi × Bool × Option Nat :=
  if event_type = 0xFF then read_meta_event s inst
  else if event_type = 0xF0 then
    match read_sysex_event s inst with
    | (r, inst1, ev?) => (r, inst1, false, ev?)
  else if event_type = 0xF7 then
    match read_f7_event s inst with
    | (r, inst1, ev?) => (r, inst1, false, ev?)
  else
    -- a Midi channel event, possibly using running status
    let new_status_bit := extract_bits_8 event_type 1 1
    let event_type1 := if new_status_bit = 0 then inst.running_status else event_type
    let instB := if new_status_bit = 0 then (skip_backwards s inst 1).2 else inst
    let instC := { instB with running_status := event_type1 }
    let midi_event_type := extract_bits_8 event_type1 1 4
    let channel := extract_bits_8 event_type1 5 8
    if midi_event_type = BLASTMIDI_CHANNEL_NOTE_OFF ∨
        midi_event_type = BLASTMIDI_CHANNEL_NOTE_ON ∨
        midi_event_type = BLASTMIDI_CHANNEL_NOTE_AFTERTOUCH ∨
        midi_event_type = BLASTMIDI_CHANNEL_CONTROLLER ∨
        midi_event_type = BLASTMIDI_CHANNEL_PITCH_BEND then
      match read_byte s instC with
      | (r, instD, first) =>
        if r ≠ BLASTMIDI_OK then (r, instD, false, none)
        else
          match read_byte s instD with
          | (r2, instE, second) =>
            if r2 ≠ BLASTMIDI_OK then (r2, instE, false, none)
            else
              match blastmidi_event_create_channel_event instE channel midi_event_type
                  first second with
              | (r3, instF, ev?) =>
                if r3 ≠ BLASTMIDI_OK then (r3, instF, false, none)
                else (BLASTMIDI_OK, instF, false, ev?)
    else if midi_event_type = BLASTMIDI_CHANNEL_PROGRAM_CHANGE ∨
        midi_event_type = BLASTMIDI_CHANNEL_CHANNEL_AFTERTOUCH then
      match read_byte s instC with
      | (r, instD, first) =>
        if r ≠ BLASTMIDI_OK then (r, instD, false, none)
        else
          match blastmidi_event_create_channel_event instD channel midi_event_type first 0 with
          | (r2, instE, ev?) =>
            if r2 ≠ BLASTMIDI_OK then (r2, instE, false, none)
            else (BLASTMIDI_OK, instE, false, ev?)
    else
      -- unknown channel event kind (the local `event` is still NULL here)
      (BLASTMIDI_INVALIDCHUNK, instC, false, none)

/-- Model of `read_track_events`: the per-track `while (1)` event loop, fueled. -/
def read_track_events_go (s : List Nat) (track_id : Nat) :
    Nat → blastmidi → Nat × blastmidi
  | 0, inst => (BLASTMIDI_UNEXPECTEDEND, inst)
  | fuel + 1, inst =>
    match read_variable_number s inst with
    | (r, inst1, delta_time) =>
      if r ≠ BLASTMIDI_OK then (r, inst1)
      else
        match read_byte s inst1 with
        | (r2, inst2, event_type) =>
          if r2 ≠ BLASTMIDI_OK then (r2, inst2)
          else
            match dispatch_event_type s inst2 event_type with
            | (r3, inst3, end_of_track, ev?) =>
              if r3 ≠ BLASTMIDI_OK then (r3, inst3)
              else
                match ev? with
                | some id =>
                  match blastmidi_add_event_to_end_of_track (some inst3) track_id
                      (some id) delta_time with
                  | (r4, inst4?) =>
                    let inst4 := inst4?.getD inst3
                    if r4 ≠ BLASTMIDI_OK then (r4, blastmidi_event_free inst4 id)
                    else if end_of_track then (BLASTMIDI_OK, inst4)
                    else read_track_events_go s track_id fuel inst4
                | none =>
                  if end_of_track then (BLASTMIDI_OK, inst3)
                  else read_track_events_go s track_id fuel inst3

def read_track_events (s : List Nat) (fuel : Nat) (inst : blastmidi) (track_id : Nat) :
    Nat × blastmidi :=
  read_track_events_go s track_id fuel inst

/-- Model of `read_track`: verify the `"MTrk"` magic, read the declared 32-bit chunk
size (rejecting 0, and otherwise never using it), reset the per-track parse
state and run the event loop. -/
def read_track (s : List Nat) (fuel : Nat) (inst : blastmidi) (track_id : Nat) :
    Nat × blastmidi :=
  match read_bytes s inst 4 with
  | (r, inst1, bs) =>
    if r ≠ BLASTMIDI_OK then (r, inst1)
    else if bs ≠ [77, 84, 114, 107] then (BLASTMIDI_INVALIDCHUNK, inst1)
    else
      match read_32_bit s inst1 with
      | (r2, inst2, chunk_size) =>
        if r2 ≠ BLASTMIDI_OK then (r2, inst2)
        else if chunk_size = 0 then (BLASTMIDI_INVALIDCHUNK, inst2)
        else
          read_track_events s fuel
            { inst2 with running_status := 0, sysex_continuation := 0 } track_id

/-- Model of `read_header`. -/
def read_header (s : List Nat) (inst : blastmidi) : Nat × blastmidi :=
  match read_bytes s inst 4 with
  | (r, inst1, bs) =>
    if r ≠ BLASTMIDI_OK then (r, inst1)
    else if bs ≠ [77, 84, 104, 100] then (BLASTMIDI_INVALID, inst1)
    else
      match read_32_bit s inst1 with
      | (r2, inst2, header_size) =>
        if r2 ≠ BLASTMIDI_OK then (r2, inst2)
        else if header_size ≠ 6 then (BLASTMIDI_INVALID, inst2)
        else
          match read_16_bit s inst2 with
          | (r3, inst3, file_type) =>
            if r3 ≠ BLASTMIDI_OK then (r3, inst3)
            else if file_type ≠ 0 ∧ file_type ≠ 1 ∧ file_type ≠ 2 then
              (BLASTMIDI_INVALID, inst3)
            else
              match read_16_bit s { inst3 with file_type := file_type } with
              | (r4, inst4, tracks) =>
                if r4 ≠ BLASTMIDI_OK then (r4, inst4)
                else if tracks = 0 then (BLASTMIDI_INVALID, inst4)
                else
                  match read_16_bit s { inst4 with track_count := tracks } with
                  | (r5, inst5, time_division) =>
                    if r5 ≠ BLASTMIDI_OK then (r5, inst5)
                    else
                      let time_type := extract_bits_16 time_division 1 1
                      if time_type ≠ 0 ∧ time_type ≠ 1 then (BLASTMIDI_INVALID, inst5)
                      else if time_type = 0 then
                        let ticks_per_beat := extract_bits_16 time_division 2 16
                        if ticks_per_beat = 0 then (BLASTMIDI_INVALID, inst5)
                        else
                          (BLASTMIDI_OK, { inst5 with
                              ticks_per_beat := ticks_per_beat, time_type := time_type })
                      else
                        -- SMPTE_frames = abs((int8_t) extract_bits_16(td, 1, 8))
                        let top := extract_bits_16 time_division 1 8
                        let SMPTE_frames := if top < 128 then top else 256 - top
                        if SMPTE_frames ≠ 24 ∧ SMPTE_frames ≠ 25 ∧ SMPTE_frames ≠ 29 ∧
                            SMPTE_frames ≠ 30 then (BLASTMIDI_INVALID, inst5)
                        else
                          let ticks_per_frame := extract_bits_16 time_division 9 16
                          if ticks_per_frame = 0 then (BLASTMIDI_INVALID, inst5)
                          else
                            (BLASTMIDI_OK, { inst5 with
                                SMPTE_frames := SMPTE_frames,
                                ticks_per_frame := ticks_per_frame,
                                time_type := time_type })

/-- The `for (i = 0; i < instance->track_count; ++i)` loop of
`blastmidi_read`, structurally recursive on the remaining track count. -/
def read_tracks_go (s : List Nat) (fuel : Nat) : Nat → Nat → blastmidi → Nat × blastmidi
  | 0, _, inst => (BLASTMIDI_OK, inst)
  | remaining + 1, i, inst =>
    match read_track s fuel inst i with
    | (r, inst1) =>
      if r ≠ BLASTMIDI_OK then (r, inst1)
      else read_tracks_go s fuel remaining (i + 1) inst1

/-- Model of `blastmidi_read`: reset, parse the header, allocate the track arrays,
parse every declared track; any failure after the callback check resets the
instance again before returning.  The event loops get `s.length + 1` fuel,
more than the stream can ever feed them. -/
def blastmidi_read (s : List Nat) (inst : blastmidi) : Nat × blastmidi :=
  if inst.data_callback = false then (BLASTMIDI_NOCALLBACK, inst)
  else
    let inst0 := reset inst
    match read_header s inst0 with
    | (r, inst1) =>
      if r ≠ BLASTMIDI_OK then (r, reset inst1)
      else
        let inst2 := allocate_tracks inst1
        match read_tracks_go s (s.length + 1) inst2.track_count 0 inst2 with
        | (r2, inst3) =>
          if r2 ≠ BLASTMIDI_OK then (r2, reset inst3)
          else (BLASTMIDI_OK, { inst3 with valid := 1 })

/-- A freshly initialized instance: `blastmidi_initialize` zeroes the whole
structure, then a data callback is configured. -/
def initial_instance : blastmidi :=
  { data_callback := true, track_count := 0, file_type := 0, time_type := 0,
    ticks_per_beat := 0, SMPTE_frames := 0, ticks_per_frame := 0, valid := 0,
    tracks := none, track_ends := none, cursor := 0, running_status := 0,
    sysex_continuation := 0, heap := emptyHeap }

/-! ## Derived definitions used by the specification statements -/

/-- The document shape the spec calls "fully reset": no track arrays, no
tracks, cleared format/time-division fields, `valid = 0`. -/
def fully_reset (d : blastmidi) : Prop :=
  d.tracks = none ∧ d.track_ends = none ∧ d.track_count = 0 ∧
    d.file_type = 0 ∧ d.time_type = 0 ∧ d.ticks_per_beat = 0 ∧
    d.SMPTE_frames = 0 ∧ d.ticks_per_frame = 0 ∧ d.valid = 0

/-- The VLQ accumulation described by the spec: starting from 0, fold
`(acc << 7) | (byte & 0x7F)` over the first `n` bytes at offset `c` (the
or-operands are disjoint, so this is `acc * 128 + byte % 128`). -/
def vlq_value (s : List Nat) (c : Nat) : Nat → Nat
  | 0 => 0
  | n + 1 => vlq_value s c n * 128 + byteAt s (c + n) % 128

/-- Modelled from the spec: the pitch-bend packing the spec describes, with
the FIRST data byte in the LOW seven bits and the second data byte in the
high seven bits.  (Written for comparison against the packing the code
performs; see `pitch_bend_temp16`.) -/
def pitch_bend_pack_spec (p1 p2 : Nat) : Nat :=
  (p1 % 128) + 128 * (p2 % 128)

/-- The bend value actually stored by the factory, read back from the
event's payload as the native 16-bit integer the header documents. -/
def pitch_bend_event_value (p1 p2 : Nat) : Option Nat :=
  match blastmidi_event_create_channel_event initial_instance 0
      BLASTMIDI_CHANNEL_PITCH_BEND p1 p2 with
  | (_, inst1, some id) => (lookupEvent inst1.heap id).map (fun ev => native_16 ev.data)
  | (_, _, none) => none

/-- The validity conditions of the header chunk, read off the 14 header
bytes at offset `c`: the `"MThd"` magic, 32-bit big-endian length exactly 6,
format type in {0, 1, 2}, track count at least 1, and a sound time-division
field (mode bit 0: the 15-bit ticks-per-beat is nonzero; mode bit 1: the
absolute value of the signed frame-rate byte — whose sign bit is the mode
bit — is one of 24, 25, 29, 30 and the low byte ticks-per-frame is
nonzero). -/
def header_conditions (s : List Nat) (c : Nat) : Prop :=
  [byteAt s c, byteAt s (c + 1), byteAt s (c + 2), byteAt s (c + 3)] = [77, 84, 104, 100] ∧
  2 ^ 24 * byteAt s (c + 4) + 2 ^ 16 * byteAt s (c + 5) + 256 * byteAt s (c + 6) +
      byteAt s (c + 7) = 6 ∧
  (let ft := 256 * byteAt s (c + 8) + byteAt s (c + 9); ft = 0 ∨ ft = 1 ∨ ft = 2) ∧
  1 ≤ 256 * byteAt s (c + 10) + byteAt s (c + 11) ∧
  (let td := 256 * byteAt s (c + 12) + byteAt s (c + 13)
   if td < 32768 then td ≠ 0
   else (let fr := 256 - td / 256
         (fr = 24 ∨ fr = 25 ∨ fr = 29 ∨ fr = 30) ∧ td % 256 ≠ 0))

/-- The instance `read_header` produces on success: cursor advanced over the
14 header bytes and the parsed fields stored. -/
def header_success_state (s : List Nat) (inst : blastmidi) : blastmidi :=
  let c := inst.cursor
  let ft := 256 * byteAt s (c + 8) + byteAt s (c + 9)
  let tc := 256 * byteAt s (c + 10) + byteAt s (c + 11)
  let td := 256 * byteAt s (c + 12) + byteAt s (c + 13)
  if td < 32768 then
    { inst with
        cursor := c + 14, file_type := ft, track_count := tc,
        time_type := 0, ticks_per_beat := td }
  else
    { inst with
        cursor := c + 14, file_type := ft, track_count := tc,
        time_type := 1, SMPTE_frames := 256 - td / 256, ticks_per_frame := td % 256 }

/-! ## Concrete evaluation scenarios -/

/-- An initialized document with one (empty) track, as `blastmidi_read`
builds it right after `allocate_tracks` on a one-track file. -/
def one_track_doc : blastmidi :=
  { initial_instance with
      track_count := 1, tracks := some [none], track_ends := some [none] }

/- C1 scenario: prepend two events to an empty track through the public
attach API. -/
def c1_mkA := blastmidi_event_create_channel_event one_track_doc 0 BLASTMIDI_CHANNEL_NOTE_ON 60 100
def c1_docA := c1_mkA.2.1
def c1_addA := blastmidi_add_event_to_beginning_of_track (some c1_docA) 0 c1_mkA.2.2 0
def c1_docB := c1_addA.2.getD c1_docA
def c1_mkB := blastmidi_event_create_channel_event c1_docB 0 BLASTMIDI_CHANNEL_NOTE_OFF 60 0
def c1_docC := c1_mkB.2.1
def c1_addB := blastmidi_add_event_to_beginning_of_track (some c1_docC) 0 c1_mkB.2.2 0
def c1_final := c1_addB.2.getD c1_docC

/- C5 scenario: wipe a track holding one event. -/
def c5_mk := blastmidi_event_create_channel_event one_track_doc 0 BLASTMIDI_CHANNEL_NOTE_ON 60 100
def c5_doc1 := c5_mk.2.1
def c5_add := blastmidi_add_event_to_end_of_track (some c5_doc1) 0 c5_mk.2.2 0
def c5_doc2 := c5_add.2.getD c5_doc1
def c5_wiped := blastmidi_whipe_track c5_doc2 0

/- C9 scenario: a document whose track 0 holds one attached event (id 0). -/
def c9_attached_event : blastmidi_event :=
  { track := 0, time := 0, type := BLASTMIDI_CHANNEL_EVENT,
    subtype := BLASTMIDI_CHANNEL_NOTE_ON, channel := 0, data := [60, 100],
    data_size := 2, data_loc := DataLoc.inlinePool, end_of_sysex := 0,
    previous := none, next := none }

def c9_doc : blastmidi :=
  { initial_instance with
      track_count := 1, tracks := some [some 0], track_ends := some [some 0],
      heap := { events := [(0, c9_attached_event)], nextId := 1 } }

/-- The event record `read_sysex_event` builds before reading the payload:
`blastmidi_event_create_sysex_event(instance, NULL, n, 1)` allocates a sysex
event of size `n` with zero-filled (uninitialized) payload bytes and
`end_of_sysex = 1`. -/
def sysex_fresh_event (n : Nat) : blastmidi_event :=
  { track := -1, time := 0, type := BLASTMIDI_SYSEX_EVENT, subtype := 0, channel := -1,
    data := List.replicate n 0, data_size := n,
    data_loc := if 0 < n ∧ n ≤ 2 then DataLoc.inlinePool else DataLoc.heapBlock,
    end_of_sysex := 1, previous := none, next := none }

/-! ## Helper lemmas -/

theorem reset_is_cleared (z : blastmidi) : fully_reset (reset z) := by
  unfold fully_reset reset
  cases h1 : z.tracks <;>
    cases h2 : (whipe_all_go z z.track_count 0).track_ends <;>
      cases h3 : z.track_ends <;>
        simp [h1, h2, h3]

theorem read_byte_ok (s : List Nat) (inst : blastmidi) (h : inst.cursor < s.length) :
    read_byte s inst =
      (BLASTMIDI_OK, { inst with cursor := inst.cursor + 1 }, byteAt s inst.cursor) := by
  have h1 : inst.cursor + 1 ≤ s.length := h
  simp [read_byte, read_bytes, h1]

theorem read_byte_cases (s : List Nat) (inst : blastmidi) :
    read_byte s inst =
        (BLASTMIDI_OK, { inst with cursor := inst.cursor + 1 }, byteAt s inst.cursor) ∨
      (read_byte s inst = (BLASTMIDI_UNEXPECTEDEND, inst, 0) ∧ s.length ≤ inst.cursor) := by
  by_cases h : inst.cursor < s.length
  · exact Or.inl (read_byte_ok s inst h)
  · right
    constructor
    · have h1 : ¬ (inst.cursor + 1 ≤ s.length) := by omega
      simp [read_byte, read_bytes, h1]
    · omega

theorem byteAt_lt (s : List Nat) (i : Nat) : byteAt s i < 256 := by
  unfold byteAt
  omega

theorem extract_bits_8_top (b : Nat) (hb : b < 256) : extract_bits_8 b 1 1 = b / 128 := by
  unfold extract_bits_8
  norm_num
  rw [Nat.mod_eq_of_lt hb]

theorem lookupEvent_alloc (h : MidiHeap) (ev : blastmidi_event) :
    lookupEvent (allocOnHeap h ev).1 (allocOnHeap h ev).2 = some ev := by
  simp [lookupEvent, allocOnHeap]

theorem lookupEvent_modify_self (h : MidiHeap) (id : Nat) (f : blastmidi_event → blastmidi_event) :
    lookupEvent (modifyEvent h id f) id = (lookupEvent h id).map f := by
  unfold lookupEvent modifyEvent
  induction h.events with
  | nil => simp
  | cons p t ih =>
    by_cases hp : p.1 = id
    · simp [hp, List.find?]
    · simpa [hp, List.find?] using ih

/-! ## Claim theorems -/

/-- C1: the spec claims that after any sequence of attach/detach operations
forward traversal from the head and backward traversal from the tail visit
the same events in reverse order.  The code violates this: prepending a
second event `B` to a track already holding `A` (two
`blastmidi_add_event_to_beginning_of_track` calls on an empty track of an
initialized one-track document) never updates `A->previous`, so the forward
walk sees `[B, A]` while the backward walk from the tail sees only `[A]`.
Both attach calls succeed, the head references `B` (id 1) and the tail `A`
(id 0), yet the backward traversal is not the reverse of the forward one. -/
theorem c1_prepend_breaks_backward_traversal :
    c1_addA.1 = BLASTMIDI_OK ∧ c1_addB.1 = BLASTMIDI_OK ∧
    trackHead c1_final 0 = some 1 ∧ trackEnd c1_final 0 = some 0 ∧
    forward_list c1_final.heap (trackHead c1_final 0) 10 = [1, 0] ∧
    backward_list c1_final.heap (trackEnd c1_final 0) 10 = [0] ∧
    backward_list c1_final.heap (trackEnd c1_final 0) 10 ≠
      (forward_list c1_final.heap (trackHead c1_final 0) 10).reverse := by
  decide

/-- C5: the spec claims `blastmidi_whipe_track` releases every event of the
track and clears the track's head and tail slots to null.  The code does
release every event (the heap is empty afterwards) but never touches
`tracks[track]` or `track_ends[track]`: after wiping a one-event track both
slots still hold the freed event's id 0. -/
theorem c5_whipe_leaves_slots_dangling :
    c5_add.1 = BLASTMIDI_OK ∧
    c5_wiped.heap.events = [] ∧
    lookupEvent c5_wiped.heap 0 = none ∧
    trackHead c5_wiped 0 = some 0 ∧ trackEnd c5_wiped 0 = some 0 ∧
    trackHead c5_wiped 0 ≠ none := by
  decide

/-- C2: whenever `blastmidi_read` (invoked with a configured callback)
returns a non-OK result — every such result comes from header or track
parsing in the model — the document it leaves behind is fully reset: both
track arrays are released (null), the track count is 0, all format and
time-division fields are cleared and the valid flag is 0.  No partially
decoded track set is observable. -/
theorem c2_read_failure_fully_resets (s : List Nat) (inst : blastmidi)
    (hcb : inst.data_callback = true)
    (herr : (blastmidi_read s inst).1 ≠ BLASTMIDI_OK) :
    fully_reset (blastmidi_read s inst).2 := by
  have hcases : (blastmidi_read s inst).1 = BLASTMIDI_OK ∨
      ∃ z, (blastmidi_read s inst).2 = reset z := by
    unfold blastmidi_read
    rw [hcb]
    simp only [Bool.true_eq_false, if_false]
    rcases h1 : read_header s (reset inst) with ⟨r1, i1⟩
    dsimp only
    split
    · exact Or.inr ⟨i1, rfl⟩
    · rcases h2 : read_tracks_go s (s.length + 1) (allocate_tracks i1).track_count 0
          (allocate_tracks i1) with ⟨r2, i3⟩
      dsimp only
      split
      · exact Or.inr ⟨i3, rfl⟩
      · exact Or.inl rfl
  rcases hcases with hok | ⟨z, hz⟩
  · exact absurd hok herr
  · rw [hz]
    exact reset_is_cleared z

/-- The value the pitch-bend factory computes:
`((p1 & 0x7f) << 8 | (p2 & 0x7f) << 1) >> 1 = (p1 % 128) * 128 + p2 % 128` —
the FIRST data byte lands in the HIGH seven bits. -/
theorem pitch_bend_temp16_eq (p1 p2 : Nat) :
    pitch_bend_temp16 p1 p2 = (p1 % 128) * 128 + p2 % 128 := by
  unfold pitch_bend_temp16 extract_bits_8
  norm_num
  omega

/-- C3: the claim (matching the MIDI meaning of the two pitch-bend data
bytes and the header's documented 8192-center semantics) says the first
data byte occupies the LOW 7 bits of the stored 14-bit value, so data bytes
`(1, 0)` would store 1; the code instead stores the first byte in the HIGH
7 bits, producing 128 — evaluated here at that failing input. -/
theorem c3_counterexample :
    pitch_bend_event_value 1 0 = some 128 ∧
    pitch_bend_pack_spec 1 0 = 1 ∧
    pitch_bend_event_value 1 0 ≠ some (pitch_bend_pack_spec 1 0) := by
  decide

/-- What the pitch-bend factory actually computes: it packs the two 7-bit
data bytes into a 14-bit value in [0, 16383] stored as a native 16-bit
integer in the event payload, but with the FIRST data byte occupying the
HIGH 7 bits and the second data byte the low 7 bits — the reverse of the
byte order the claim (and the SMF wire format) prescribes. -/
theorem c3_pitch_bend_packing (p1 p2 : Nat) :
    pitch_bend_event_value p1 p2 = some ((p1 % 128) * 128 + p2 % 128) ∧
    (p1 % 128) * 128 + p2 % 128 ≤ 16383 := by
  have hlt : (p1 % 128) * 128 + p2 % 128 ≤ 16383 := by omega
  refine ⟨?_, hlt⟩
  unfold pitch_bend_event_value blastmidi_event_create_channel_event
  norm_num [BLASTMIDI_CHANNEL_PITCH_BEND, BLASTMIDI_CHANNEL_NOTE_OFF,
    BLASTMIDI_CHANNEL_NOTE_ON, BLASTMIDI_CHANNEL_NOTE_AFTERTOUCH,
    BLASTMIDI_CHANNEL_CONTROLLER, BLASTMIDI_CHANNEL_PROGRAM_CHANGE,
    BLASTMIDI_CHANNEL_CHANNEL_AFTERTOUCH]
  rw [pitch_bend_temp16_eq]
  unfold allocate_event allocOnHeap initial_instance emptyHeap
  norm_num [BLASTMIDI_OK, lookupEvent, modifyEvent, List.find?, native_16]
  omega

/-- C4 counterexample: the claim says payload sizes of at most 2 live in the
inline pool with no separate heap allocation; at `data_size = 0` the code
takes the `malloc` branch, so the event's payload pointer is a separately
allocated heap block. -/
theorem c4_counterexample :
    ((lookupEvent
        (allocate_event initial_instance BLASTMIDI_META_EVENT BLASTMIDI_META_TEXT none 0).2.1.heap
        (allocate_event initial_instance BLASTMIDI_META_EVENT BLASTMIDI_META_TEXT none 0).2.2).map
      (fun ev => ev.data_loc)) = some DataLoc.heapBlock ∧ (0 : Nat) ≤ 2 := by
  decide

/-- C4 (amended): an event produced by `allocate_event` keeps its payload in
the inline 2-byte pool exactly when the payload size is 1 or 2; for size 0
and for sizes above 2 a separate heap block is allocated, and
`blastmidi_event_free` passes the payload pointer to the release function
exactly when the size exceeds 2 (a zero-size heap block is never released
by it). -/
theorem c4_payload_placement (inst : blastmidi) (type subtype : Nat)
    (data : Option (List Nat)) (n : Nat) :
    (allocate_event inst type subtype data n).1 = BLASTMIDI_OK ∧
    (lookupEvent (allocate_event inst type subtype data n).2.1.heap
        (allocate_event inst type subtype data n).2.2).map
      (fun ev => (ev.data_loc, free_releases_payload ev)) =
      some (if 1 ≤ n ∧ n ≤ 2 then DataLoc.inlinePool else DataLoc.heapBlock,
        decide (2 < n)) := by
  constructor
  · unfold allocate_event
    rfl
  · unfold allocate_event
    rw [lookupEvent_alloc]
    rfl

/-- C9: every misuse of the mutation API returns synchronously with the
documented error code and leaves the document (and hence every track list)
unchanged: attaching through any of the three attach entry points fails with
ALREADYADDED when the event's track field shows it is already attached;
removal fails with NOTADDED for a never-attached event and with
NOTPARTOFTRACK for an event attached to a different track; a null document,
a null event, or an out-of-range track id yields INVALIDPARAM. -/
theorem c9_mutation_api_misuse (inst : blastmidi) (track_id delta evId : Nat)
    (aft : Option Nat) :
    (blastmidi_add_event none track_id (some evId) delta aft =
        (BLASTMIDI_INVALIDPARAM, none) ∧
      blastmidi_add_event_to_beginning_of_track none track_id (some evId) delta =
        (BLASTMIDI_INVALIDPARAM, none) ∧
      blastmidi_add_event_to_end_of_track none track_id (some evId) delta =
        (BLASTMIDI_INVALIDPARAM, none) ∧
      blastmidi_remove_event_from_track none track_id (some evId) =
        (BLASTMIDI_INVALIDPARAM, none)) ∧
    (blastmidi_add_event (some inst) track_id none delta aft =
        (BLASTMIDI_INVALIDPARAM, some inst) ∧
      blastmidi_add_event_to_beginning_of_track (some inst) track_id none delta =
        (BLASTMIDI_INVALIDPARAM, some inst) ∧
      blastmidi_add_event_to_end_of_track (some inst) track_id none delta =
        (BLASTMIDI_INVALIDPARAM, some inst) ∧
      (track_id < inst.track_count →
        blastmidi_remove_event_from_track (some inst) track_id none =
          (BLASTMIDI_INVALIDPARAM, some inst))) ∧
    (∀ ev, lookupEvent inst.heap evId = some ev → ev.track ≠ -1 →
      blastmidi_add_event (some inst) track_id (some evId) delta aft =
          (BLASTMIDI_ALREADYADDED, some inst) ∧
        blastmidi_add_event_to_beginning_of_track (some inst) track_id (some evId) delta =
          (BLASTMIDI_ALREADYADDED, some inst) ∧
        blastmidi_add_event_to_end_of_track (some inst) track_id (some evId) delta =
          (BLASTMIDI_ALREADYADDED, some inst)) ∧
    (∀ ev, lookupEvent inst.heap evId = some ev → ev.track = -1 →
        inst.track_count ≤ track_id →
      blastmidi_add_event (some inst) track_id (some evId) delta aft =
          (BLASTMIDI_INVALIDPARAM, some inst) ∧
        blastmidi_add_event_to_beginning_of_track (some inst) track_id (some evId) delta =
          (BLASTMIDI_INVALIDPARAM, some inst) ∧
        blastmidi_add_event_to_end_of_track (some inst) track_id (some evId) delta =
          (BLASTMIDI_INVALIDPARAM, some inst)) ∧
    (inst.track_count ≤ track_id →
      blastmidi_remove_event_from_track (some inst) track_id (some evId) =
        (BLASTMIDI_INVALIDPARAM, some inst)) ∧
    (∀ ev, lookupEvent inst.heap evId = some ev → track_id < inst.track_count →
        ev.track = -1 →
      blastmidi_remove_event_from_track (some inst) track_id (some evId) =
        (BLASTMIDI_NOTADDED, some inst)) ∧
    (∀ ev, lookupEvent inst.heap evId = some ev → track_id < inst.track_count →
        ev.track ≠ -1 → ev.track ≠ (track_id : Int) →
      blastmidi_remove_event_from_track (some inst) track_id (some evId) =
        (BLASTMIDI_NOTPARTOFTRACK, some inst)) := by
  refine ⟨⟨rfl, rfl, rfl, rfl⟩, ⟨rfl, rfl, rfl, ?_⟩, ?_, ?_, ?_, ?_, ?_⟩
  · intro hrange
    unfold blastmidi_remove_event_from_track
    have : ¬ (track_id ≥ inst.track_count) := by omega
    simp [this]
  · intro ev hev htrack
    unfold blastmidi_add_event blastmidi_add_event_to_beginning_of_track
      blastmidi_add_event_to_end_of_track
    simp [hev, htrack]
  · intro ev hev htrack hrange
    have hge : track_id ≥ inst.track_count := hrange
    unfold blastmidi_add_event blastmidi_add_event_to_beginning_of_track
      blastmidi_add_event_to_end_of_track
    simp [hev, htrack, hge]
  · intro hrange
    unfold blastmidi_remove_event_from_track
    have hge : track_id ≥ inst.track_count := hrange
    simp [hge]
  · intro ev hev hrange htrack
    unfold blastmidi_remove_event_from_track
    have hlt : ¬ (track_id ≥ inst.track_count) := by omega
    simp [hlt, hev, htrack]
  · intro ev hev hrange htrack htrack2
    unfold blastmidi_remove_event_from_track
    have hlt : ¬ (track_id ≥ inst.track_count) := by omega
    simp [hlt, hev, htrack, htrack2]

theorem read_bytes_ok (s : List Nat) (inst : blastmidi) (n : Nat)
    (h : inst.cursor + n ≤ s.length) :
    read_bytes s inst n = (BLASTMIDI_OK, { inst with cursor := inst.cursor + n },
      (List.range n).map (fun i => byteAt s (inst.cursor + i))) := by
  simp [read_bytes, h]

theorem read_16_bit_ok (s : List Nat) (inst : blastmidi)
    (h : inst.cursor + 2 ≤ s.length) :
    read_16_bit s inst = (BLASTMIDI_OK, { inst with cursor := inst.cursor + 2 },
      256 * byteAt s inst.cursor + byteAt s (inst.cursor + 1)) := by
  have hb0 := byteAt_lt s inst.cursor
  have hb1 := byteAt_lt s (inst.cursor + 1)
  have hr : List.range 2 = [0, 1] := rfl
  rw [read_16_bit, read_bytes_ok s inst 2 h, hr]
  simp [convert_endian_16, swap_16, le_16]
  omega

theorem read_32_bit_ok (s : List Nat) (inst : blastmidi)
    (h : inst.cursor + 4 ≤ s.length) :
    read_32_bit s inst = (BLASTMIDI_OK, { inst with cursor := inst.cursor + 4 },
      2 ^ 24 * byteAt s inst.cursor + 2 ^ 16 * byteAt s (inst.cursor + 1) +
        256 * byteAt s (inst.cursor + 2) + byteAt s (inst.cursor + 3)) := by
  have hb0 := byteAt_lt s inst.cursor
  have hb1 := byteAt_lt s (inst.cursor + 1)
  have hb2 := byteAt_lt s (inst.cursor + 2)
  have hb3 := byteAt_lt s (inst.cursor + 3)
  have hr : List.range 4 = [0, 1, 2, 3] := rfl
  rw [read_32_bit, read_bytes_ok s inst 4 h, hr]
  simp [convert_endian_32, swap_32, le_32]
  omega

/-- C10: a track chunk whose magic is `"MTrk"` but whose declared 32-bit
length is zero is rejected with the invalid-chunk error before the event
loop runs: only the 8 chunk-header bytes are consumed and nothing else in
the instance changes. -/
theorem c10_zero_length_track_rejected (s : List Nat) (inst : blastmidi)
    (fuel track_id : Nat)
    (h0 : byteAt s inst.cursor = 77) (h1 : byteAt s (inst.cursor + 1) = 84)
    (h2 : byteAt s (inst.cursor + 2) = 114) (h3 : byteAt s (inst.cursor + 3) = 107)
    (h4 : byteAt s (inst.cursor + 4) = 0) (h5 : byteAt s (inst.cursor + 5) = 0)
    (h6 : byteAt s (inst.cursor + 6) = 0) (h7 : byteAt s (inst.cursor + 7) = 0)
    (hlen : inst.cursor + 8 ≤ s.length) :
    read_track s fuel inst track_id =
      (BLASTMIDI_INVALIDCHUNK, { inst with cursor := inst.cursor + 8 }) := by
  have hr : List.range 4 = [0, 1, 2, 3] := rfl
  rw [read_track, read_bytes_ok s inst 4 (by omega), hr]
  have h32 := read_32_bit_ok s { inst with cursor := inst.cursor + 4 } (by simp; omega)
  simp only [List.map, Nat.add_zero, h0, h1, h2, h3] at *
  rw [h32]
  simp [h4, h5, h6, h7, BLASTMIDI_OK, BLASTMIDI_UNEXPECTEDEND, BLASTMIDI_INVALIDCHUNK]

theorem rvn_go_cursor_le (s : List Nat) (fuel : Nat) (inst : blastmidi) (acc : Nat) :
    (rvn_go s fuel inst acc).2.1.cursor ≤ inst.cursor + fuel := by
  induction fuel generalizing inst acc with
  | zero => simp [rvn_go]
  | succ n ih =>
    rw [rvn_go]
    rcases read_byte_cases s inst with hok | ⟨herr, _⟩
    · rw [hok]
      dsimp only
      simp only [ne_eq, not_true_eq_false, if_false, ite_false]
      split_ifs
      · simp
      · simp
      · exact le_trans (ih _ _) (by simp; omega)
    · rw [herr]
      dsimp only
      simp [BLASTMIDI_UNEXPECTEDEND, BLASTMIDI_OK]

theorem rvn_go_cont (s : List Nat) (n : Nat) (inst : blastmidi) (acc : Nat)
    (hcur : inst.cursor < s.length) (hb : 128 ≤ byteAt s inst.cursor) :
    rvn_go s (n + 2) inst acc =
      rvn_go s (n + 1) { inst with cursor := inst.cursor + 1 }
        ((acc * 128) % 2 ^ 32 + byteAt s inst.cursor % 128) := by
  have hblt := byteAt_lt s inst.cursor
  have hkg : extract_bits_8 (byteAt s inst.cursor) 1 1 = 1 := by
    rw [extract_bits_8_top _ hblt]
    omega
  rw [show n + 2 = (n + 1) + 1 from rfl, rvn_go, read_byte_ok s inst hcur]
  dsimp only
  simp [hkg]

theorem rvn_go_stop (s : List Nat) (fuel : Nat) (inst : blastmidi) (acc : Nat)
    (hcur : inst.cursor < s.length) (hb : byteAt s inst.cursor < 128) :
    rvn_go s (fuel + 1) inst acc =
      (BLASTMIDI_OK, { inst with cursor := inst.cursor + 1 },
        (acc * 128) % 2 ^ 32 + byteAt s inst.cursor % 128) := by
  have hblt := byteAt_lt s inst.cursor
  have hkg : extract_bits_8 (byteAt s inst.cursor) 1 1 = 0 := by
    rw [extract_bits_8_top _ hblt]
    omega
  rw [rvn_go, read_byte_ok s inst hcur]
  dsimp only
  simp [hkg]

theorem rvn_go_last (s : List Nat) (inst : blastmidi) (acc : Nat)
    (hcur : inst.cursor < s.length) (hb : 128 ≤ byteAt s inst.cursor) :
    rvn_go s 1 inst acc =
      (BLASTMIDI_INVALIDCHUNK, { inst with cursor := inst.cursor + 1 }, acc) := by
  have hblt := byteAt_lt s inst.cursor
  have hkg : extract_bits_8 (byteAt s inst.cursor) 1 1 = 1 := by
    rw [extract_bits_8_top _ hblt]
    omega
  rw [show (1 : Nat) = 0 + 1 from rfl, rvn_go, read_byte_ok s inst hcur]
  dsimp only
  simp [hkg]


/-- C6: `read_variable_number` consumes at most 4 bytes; when the `k`-th byte
(`k < 4`) is the first one without its top bit set it returns OK, advances
the cursor over exactly those `k + 1` bytes, and yields the accumulation
`(acc << 7) | (byte & 0x7F)` over them (`vlq_value`); when the first four
bytes all have their top bit set it fails with the invalid-chunk error after
consuming exactly 4 bytes (the 4th byte is not accumulated). -/
theorem c6_vlq_decoder (s : List Nat) (inst : blastmidi) :
    (read_variable_number s inst).2.1.cursor ≤ inst.cursor + 4 ∧
    (∀ k, k < 4 → inst.cursor + k < s.length →
      (∀ j, j < k → 128 ≤ byteAt s (inst.cursor + j)) →
      byteAt s (inst.cursor + k) < 128 →
      read_variable_number s inst =
        (BLASTMIDI_OK, { inst with cursor := inst.cursor + (k + 1) },
          vlq_value s inst.cursor (k + 1))) ∧
    (inst.cursor + 4 ≤ s.length →
      (∀ j, j < 4 → 128 ≤ byteAt s (inst.cursor + j)) →
      read_variable_number s inst =
        (BLASTMIDI_INVALIDCHUNK, { inst with cursor := inst.cursor + 4 },
          vlq_value s inst.cursor 3)) := by
  have hb0 := byteAt_lt s inst.cursor
  have hb1 := byteAt_lt s (inst.cursor + 1)
  have hb2 := byteAt_lt s (inst.cursor + 2)
  refine ⟨rvn_go_cursor_le s 4 inst 0, ?_, ?_⟩
  · intro k hk hcur hlow hstop
    interval_cases k
    · refine (rvn_go_stop s 3 inst 0 (by omega) (by simpa using hstop)).trans ?_
      simp [vlq_value, Prod.ext_iff]
    · have h0 : 128 ≤ byteAt s inst.cursor := by simpa using hlow 0 (by omega)
      refine (rvn_go_cont s 2 inst 0 (by omega) h0).trans ?_
      refine (rvn_go_stop s 2 _ _ (by simp; omega) (by simpa using hstop)).trans ?_
      simp [vlq_value, Prod.ext_iff]
      omega
    · have h0 : 128 ≤ byteAt s inst.cursor := by simpa using hlow 0 (by omega)
      have h1 : 128 ≤ byteAt s (inst.cursor + 1) := hlow 1 (by omega)
      refine (rvn_go_cont s 2 inst 0 (by omega) h0).trans ?_
      refine (rvn_go_cont s 1 _ _ (by simp; omega) (by simpa using h1)).trans ?_
      refine (rvn_go_stop s 1 _ _ (by simp; omega) (by simpa using hstop)).trans ?_
      simp [vlq_value, Prod.ext_iff,
        show inst.cursor + 1 + 1 = inst.cursor + 2 from rfl]
      omega
    · have h0 : 128 ≤ byteAt s inst.cursor := by simpa using hlow 0 (by omega)
      have h1 : 128 ≤ byteAt s (inst.cursor + 1) := hlow 1 (by omega)
      have h2 : 128 ≤ byteAt s (inst.cursor + 2) := hlow 2 (by omega)
      refine (rvn_go_cont s 2 inst 0 (by omega) h0).trans ?_
      refine (rvn_go_cont s 1 _ _ (by simp; omega) (by simpa using h1)).trans ?_
      refine (rvn_go_cont s 0 _ _ (by simp; omega) (by simpa using h2)).trans ?_
      refine (rvn_go_stop s 0 _ _ (by simp; omega) (by simpa using hstop)).trans ?_
      simp [vlq_value, Prod.ext_iff,
        show inst.cursor + 1 + 1 = inst.cursor + 2 from rfl,
        show inst.cursor + 1 + 1 + 1 = inst.cursor + 3 from rfl]
      omega
  · intro hlen hlow
    have h0 : 128 ≤ byteAt s inst.cursor := by simpa using hlow 0 (by omega)
    have h1 : 128 ≤ byteAt s (inst.cursor + 1) := hlow 1 (by omega)
    have h2 : 128 ≤ byteAt s (inst.cursor + 2) := hlow 2 (by omega)
    have h3 : 128 ≤ byteAt s (inst.cursor + 3) := hlow 3 (by omega)
    refine (rvn_go_cont s 2 inst 0 (by omega) h0).trans ?_
    refine (rvn_go_cont s 1 _ _ (by simp; omega) (by simpa using h1)).trans ?_
    refine (rvn_go_cont s 0 _ _ (by simp; omega) (by simpa using h2)).trans ?_
    refine (rvn_go_last s _ _ (by simp; omega) (by simpa using h3)).trans ?_
    simp [vlq_value, Prod.ext_iff,
      show inst.cursor + 1 + 1 = inst.cursor + 2 from rfl,
      show inst.cursor + 1 + 1 + 1 = inst.cursor + 3 from rfl]
    omega

theorem create_sysex_none_fst (inst : blastmidi) (n : Nat) :
    (blastmidi_event_create_sysex_event inst none n 1).1 = BLASTMIDI_OK := rfl

theorem create_sysex_none_evq (inst : blastmidi) (n : Nat) :
    (blastmidi_event_create_sysex_event inst none n 1).2.2 = some inst.heap.nextId := rfl

theorem create_sysex_none_cursor (inst : blastmidi) (n : Nat) :
    (blastmidi_event_create_sysex_event inst none n 1).2.1.cursor = inst.cursor := rfl

theorem create_sysex_none_flag (inst : blastmidi) (n : Nat) :
    (blastmidi_event_create_sysex_event inst none n 1).2.1.sysex_continuation =
      inst.sysex_continuation := rfl

theorem create_sysex_none_lookup (inst : blastmidi) (n : Nat) :
    lookupEvent (blastmidi_event_create_sysex_event inst none n 1).2.1.heap
      inst.heap.nextId = some (sysex_fresh_event n) := by
  unfold blastmidi_event_create_sysex_event allocate_event allocOnHeap sysex_fresh_event
  dsimp only
  rw [if_neg (by simp : ¬ (BLASTMIDI_OK ≠ BLASTMIDI_OK))]
  dsimp only
  rw [lookupEvent_modify_self]
  simp [lookupEvent]

/-- C8: given that the VLQ length parse at the cursor yields `L`:
if `L = 0` the sysex decoder returns OK and produces no event; otherwise it
creates a sysex event whose payload is the first `L - 1` bytes read
(`data_size = L - 1`), then reads one more byte — on 0xF7 the event's
`end_of_sysex` stays 1 and the document's `sysex_continuation` flag is
cleared, while on any other value `end_of_sysex` becomes 0 and
`sysex_continuation` is set.  The 0xF7 status dispatch of the event loop
(`read_f7_event`) decodes as a continuation fragment exactly when
`sysex_continuation` is set, and as a standalone escape packet otherwise. -/
theorem c8_sysex_decoder (s : List Nat) (inst inst1 : blastmidi) (L : Nat)
    (hL : read_variable_number s inst = (BLASTMIDI_OK, inst1, L)) :
    (inst.sysex_continuation = 1 → read_f7_event s inst = read_sysex_event s inst) ∧
    (inst.sysex_continuation ≠ 1 →
      read_f7_event s inst = read_authorization_sysex_event s inst) ∧
    (L = 0 → read_sysex_event s inst = (BLASTMIDI_OK, inst1, none)) ∧
    (1 ≤ L → inst1.cursor + L ≤ s.length →
      (read_sysex_event s inst).1 = BLASTMIDI_OK ∧
      (read_sysex_event s inst).2.2 = some inst1.heap.nextId ∧
      (read_sysex_event s inst).2.1.cursor = inst1.cursor + L ∧
      (read_sysex_event s inst).2.1.sysex_continuation =
        (if byteAt s (inst1.cursor + (L - 1)) = 0xF7 then 0 else 1) ∧
      lookupEvent (read_sysex_event s inst).2.1.heap inst1.heap.nextId =
        some { track := -1, time := 0, type := BLASTMIDI_SYSEX_EVENT, subtype := 0,
               channel := -1,
               data := (List.range (L - 1)).map (fun i => byteAt s (inst1.cursor + i)),
               data_size := L - 1,
               data_loc := if 1 ≤ L - 1 ∧ L - 1 ≤ 2 then DataLoc.inlinePool
                 else DataLoc.heapBlock,
               end_of_sysex := if byteAt s (inst1.cursor + (L - 1)) = 0xF7 then 1 else 0,
               previous := none, next := none }) := by
  have hok : ¬ (BLASTMIDI_OK ≠ BLASTMIDI_OK) := by simp
  refine ⟨?_, ?_, ?_, ?_⟩
  · intro hflag
    simp [read_f7_event, hflag]
  · intro hflag
    simp [read_f7_event, hflag]
  · intro hL0
    subst hL0
    rw [read_sysex_event, hL]
    simp
  · intro hge hlen
    rw [read_sysex_event, hL]
    dsimp only
    rw [if_neg hok, if_neg (by omega : ¬ (L = 0))]
    rcases hc : blastmidi_event_create_sysex_event inst1 none (L - 1) 1 with ⟨rc, instA, evq⟩
    have hrc := create_sysex_none_fst inst1 (L - 1)
    have hevq := create_sysex_none_evq inst1 (L - 1)
    have hcurA := create_sysex_none_cursor inst1 (L - 1)
    have hflagA := create_sysex_none_flag inst1 (L - 1)
    have hlookA := create_sysex_none_lookup inst1 (L - 1)
    rw [hc] at hrc hevq hcurA hflagA hlookA
    dsimp only at hrc hevq hcurA hflagA hlookA
    subst hrc
    subst hevq
    dsimp only
    rw [if_neg hok]
    by_cases h1L : 1 < L
    · rw [if_pos h1L, read_bytes_ok s instA (L - 1) (by omega)]
      dsimp only
      rw [if_neg hok]
      have hbcur : (setEventData { instA with cursor := instA.cursor + (L - 1) }
          inst1.heap.nextId ((List.range (L - 1)).map
            (fun i => byteAt s (instA.cursor + i)))).cursor = inst1.cursor + (L - 1) := by
        simp [setEventData, hcurA]
      rw [read_byte_ok s _ (by rw [hbcur]; omega)]
      dsimp only
      rw [if_neg hok, hbcur]
      by_cases hf : byteAt s (inst1.cursor + (L - 1)) = 0xF7
      · rw [if_pos hf]
        refine ⟨rfl, rfl, ?_, ?_, ?_⟩
        · simp [setEventData, hcurA]
          omega
        · simp [setEventData, hf]
        · rw [if_pos hf]
          rw [if_neg hok]
          dsimp only
          simp only [setEventData]
          rw [lookupEvent_modify_self, hlookA]
          dsimp only [Option.map]
          unfold sysex_fresh_event
          simp only [hcurA]
          rfl
      · rw [if_neg hf]
        refine ⟨rfl, rfl, ?_, ?_, ?_⟩
        · simp [setEventData, hcurA]
          omega
        · simp [setEventData, hf]
        · rw [if_neg hf]
          rw [if_neg hok]
          dsimp only
          simp only [setEventData]
          rw [lookupEvent_modify_self, lookupEvent_modify_self, hlookA]
          dsimp only [Option.map]
          unfold sysex_fresh_event
          simp only [hcurA]
          rfl
    · have hL1 : L = 1 := by omega
      subst hL1
      rw [if_neg h1L]
      dsimp only
      rw [read_byte_ok s instA (by omega)]
      dsimp only
      rw [if_neg hok, hcurA]
      by_cases hf : byteAt s (inst1.cursor + (1 - 1)) = 0xF7
      · have hf0 : byteAt s inst1.cursor = 0xF7 := by simpa using hf
        rw [if_pos hf0]
        refine ⟨rfl, rfl, by simp [hcurA], by simp [hf0], ?_⟩
        rw [if_pos hf]
        simpa [sysex_fresh_event] using hlookA
      · have hf0 : ¬ (byteAt s inst1.cursor = 0xF7) := by simpa using hf
        rw [if_neg hf0]
        refine ⟨rfl, rfl, by simp [hcurA], by simp [hf0], ?_⟩
        rw [if_neg hf]
        rw [if_neg hok]
        dsimp only
        rw [lookupEvent_modify_self, hlookA]
        dsimp only [Option.map]
        unfold sysex_fresh_event
        rfl

theorem extract_bits_16_bit1 (v : Nat) (hv : v < 65536) :
    extract_bits_16 v 1 1 = v / 32768 := by
  unfold extract_bits_16
  norm_num
  rw [Nat.mod_eq_of_lt hv]

theorem extract_bits_16_low15 (v : Nat) (hv : v < 65536) :
    extract_bits_16 v 2 16 = v % 32768 := by
  unfold extract_bits_16
  norm_num
  omega

theorem extract_bits_16_top8 (v : Nat) (hv : v < 65536) :
    extract_bits_16 v 1 8 = v / 256 := by
  unfold extract_bits_16
  norm_num
  rw [Nat.mod_eq_of_lt hv]

theorem extract_bits_16_low8 (v : Nat) (hv : v < 65536) :
    extract_bits_16 v 9 16 = v % 256 := by
  unfold extract_bits_16
  norm_num
  omega

/-- C7 (amended with the length proviso): on any stream holding at least the
14 header bytes after the cursor, `read_header` succeeds — returning OK with
the parsed fields stored — exactly when the header conditions hold (the
`"MThd"` magic, 32-bit length 6, format in {0,1,2}, track count at least 1,
and a sound time-division word), and returns the not-a-valid-file error
`BLASTMIDI_INVALID` whenever they do not.  (A stream too short for the
header instead fails with the unexpected-end error; see the
counterexample.) -/
theorem c7_read_header_checks (s : List Nat) (inst : blastmidi)
    (h14 : inst.cursor + 14 ≤ s.length) :
    (header_conditions s inst.cursor →
      read_header s inst = (BLASTMIDI_OK, header_success_state s inst)) ∧
    (¬ header_conditions s inst.cursor →
      (read_header s inst).1 = BLASTMIDI_INVALID) := by
  have hok : ¬ (BLASTMIDI_OK ≠ BLASTMIDI_OK) := by simp
  have hr4 : List.range 4 = [0, 1, 2, 3] := rfl
  have hn41 : inst.cursor + 4 + 1 = inst.cursor + 5 := rfl
  have hn42 : inst.cursor + 4 + 2 = inst.cursor + 6 := rfl
  have hn43 : inst.cursor + 4 + 3 = inst.cursor + 7 := rfl
  have hn44 : inst.cursor + 4 + 4 = inst.cursor + 8 := rfl
  have hn81 : inst.cursor + 8 + 1 = inst.cursor + 9 := rfl
  have hn82 : inst.cursor + 8 + 2 = inst.cursor + 10 := rfl
  have hn101 : inst.cursor + 10 + 1 = inst.cursor + 11 := rfl
  have hn102 : inst.cursor + 10 + 2 = inst.cursor + 12 := rfl
  have hn121 : inst.cursor + 12 + 1 = inst.cursor + 13 := rfl
  have hn122 : inst.cursor + 12 + 2 = inst.cursor + 14 := rfl
  have hb12 := byteAt_lt s (inst.cursor + 12)
  have hb13 := byteAt_lt s (inst.cursor + 13)
  rw [read_header, read_bytes_ok s inst 4 (by omega), hr4]
  dsimp only [List.map]
  simp only [Nat.add_zero]
  rw [if_neg hok]
  rw [read_32_bit_ok s { inst with cursor := inst.cursor + 4 } (by dsimp only; omega)]
  dsimp only
  simp only [hn41, hn42, hn43, hn44]
  rw [if_neg hok]
  rw [read_16_bit_ok s { inst with cursor := inst.cursor + 8 } (by dsimp only; omega)]
  dsimp only
  simp only [hn81, hn82]
  rw [if_neg hok]
  rw [read_16_bit_ok s
    { inst with
        file_type := 256 * byteAt s (inst.cursor + 8) + byteAt s (inst.cursor + 9),
        cursor := inst.cursor + 10 } (by dsimp only; omega)]
  dsimp only
  simp only [hn101, hn102]
  rw [if_neg hok]
  rw [read_16_bit_ok s
    { inst with
        track_count := 256 * byteAt s (inst.cursor + 10) + byteAt s (inst.cursor + 11),
        file_type := 256 * byteAt s (inst.cursor + 8) + byteAt s (inst.cursor + 9),
        cursor := inst.cursor + 12 } (by dsimp only; omega)]
  dsimp only
  simp only [hn121, hn122]
  rw [if_neg hok]
  rw [extract_bits_16_bit1 _ (by omega)]
  constructor
  · intro hcond
    obtain ⟨hmagic, hsize, hft, htc, htd⟩ := hcond
    rw [if_neg (by simpa using hmagic)]
    rw [if_neg (by omega)]
    rw [if_neg (by dsimp only at hft ⊢; omega)]
    rw [if_neg (by omega)]
    rw [if_neg (by omega)]
    by_cases htt : 256 * byteAt s (inst.cursor + 12) + byteAt s (inst.cursor + 13) < 32768
    · rw [if_pos (by omega : (256 * byteAt s (inst.cursor + 12) +
        byteAt s (inst.cursor + 13)) / 32768 = 0)]
      rw [extract_bits_16_low15 _ (by omega)]
      rw [if_neg (by rw [if_pos htt] at htd; omega)]
      rw [header_success_state]
      rw [if_pos htt]
      refine congrArg _ ?_
      simp only [blastmidi.mk.injEq, eq_self_iff_true, true_and, and_true]
      omega
    · rw [if_neg (by omega : ¬ ((256 * byteAt s (inst.cursor + 12) +
        byteAt s (inst.cursor + 13)) / 32768 = 0))]
      rw [extract_bits_16_top8 _ (by omega)]
      rw [if_neg (by omega : ¬ ((256 * byteAt s (inst.cursor + 12) +
        byteAt s (inst.cursor + 13)) / 256 < 128))]
      rw [if_neg htt] at htd
      rw [if_neg (by omega)]
      rw [extract_bits_16_low8 _ (by omega)]
      rw [if_neg (by omega)]
      rw [header_success_state]
      rw [if_neg htt]
      refine congrArg _ ?_
      simp only [blastmidi.mk.injEq, eq_self_iff_true, true_and, and_true]
      omega
  · intro hncond
    by_cases hmagic : [byteAt s inst.cursor, byteAt s (inst.cursor + 1),
        byteAt s (inst.cursor + 2), byteAt s (inst.cursor + 3)] = [77, 84, 104, 100]
    case neg =>
      rw [if_pos (by simpa using hmagic)]
    case pos =>
    rw [if_neg (by simpa using hmagic)]
    by_cases hsize : 2 ^ 24 * byteAt s (inst.cursor + 4) + 2 ^ 16 * byteAt s (inst.cursor + 5) +
        256 * byteAt s (inst.cursor + 6) + byteAt s (inst.cursor + 7) = 6
    case neg =>
      rw [if_pos hsize]
    case pos =>
    rw [if_neg (by omega)]
    by_cases hft : 256 * byteAt s (inst.cursor + 8) + byteAt s (inst.cursor + 9) = 0 ∨
        256 * byteAt s (inst.cursor + 8) + byteAt s (inst.cursor + 9) = 1 ∨
        256 * byteAt s (inst.cursor + 8) + byteAt s (inst.cursor + 9) = 2
    case neg =>
      rw [if_pos (by omega)]
    case pos =>
    rw [if_neg (by omega)]
    by_cases htc : 1 ≤ 256 * byteAt s (inst.cursor + 10) + byteAt s (inst.cursor + 11)
    case neg =>
      rw [if_pos (by omega)]
    case pos =>
    rw [if_neg (by omega)]
    rw [if_neg (by omega)]
    by_cases htt : 256 * byteAt s (inst.cursor + 12) + byteAt s (inst.cursor + 13) < 32768
    · rw [if_pos (by omega : (256 * byteAt s (inst.cursor + 12) +
        byteAt s (inst.cursor + 13)) / 32768 = 0)]
      rw [extract_bits_16_low15 _ (by omega)]
      have hzero : 256 * byteAt s (inst.cursor + 12) + byteAt s (inst.cursor + 13) = 0 := by
        by_contra hne
        refine hncond ?_
        unfold header_conditions
        refine ⟨hmagic, hsize, hft, htc, ?_⟩
        rw [if_pos htt]
        exact hne
      rw [if_pos (by omega)]
    · rw [if_neg (by omega : ¬ ((256 * byteAt s (inst.cursor + 12) +
        byteAt s (inst.cursor + 13)) / 32768 = 0))]
      rw [extract_bits_16_top8 _ (by omega)]
      rw [if_neg (by omega : ¬ ((256 * byteAt s (inst.cursor + 12) +
        byteAt s (inst.cursor + 13)) / 256 < 128))]
      by_cases hfr : 256 - (256 * byteAt s (inst.cursor + 12) +
          byteAt s (inst.cursor + 13)) / 256 = 24 ∨
          256 - (256 * byteAt s (inst.cursor + 12) + byteAt s (inst.cursor + 13)) / 256 = 25 ∨
          256 - (256 * byteAt s (inst.cursor + 12) + byteAt s (inst.cursor + 13)) / 256 = 29 ∨
          256 - (256 * byteAt s (inst.cursor + 12) + byteAt s (inst.cursor + 13)) / 256 = 30
      case neg =>
        rw [if_pos (by omega)]
      case pos =>
      rw [if_neg (by omega)]
      rw [extract_bits_16_low8 _ (by omega)]
      have hzero : (256 * byteAt s (inst.cursor + 12) + byteAt s (inst.cursor + 13)) % 256 = 0 := by
        by_contra hne
        refine hncond ?_
        unfold header_conditions
        refine ⟨hmagic, hsize, hft, htc, ?_⟩
        rw [if_neg htt]
        exact ⟨hfr, hne⟩
      rw [if_pos hzero]

/-- C7 counterexample: the claim as frozen promises the not-a-valid-file
error whenever the stream does not carry a valid header; on the empty stream
(whose bytes certainly do not satisfy the header conditions) `read_header`
instead returns the unexpected-end error `BLASTMIDI_UNEXPECTEDEND`, which is
a different code from `BLASTMIDI_INVALID`. -/
theorem c7_counterexample :
    (read_header [] initial_instance).1 = BLASTMIDI_UNEXPECTEDEND ∧
    BLASTMIDI_UNEXPECTEDEND ≠ BLASTMIDI_INVALID ∧
    ¬ header_conditions [] initial_instance.cursor := by
  refine ⟨by decide, by decide, ?_⟩
  unfold header_conditions
  decide

theorem c2_read_failure_fully_resets_witness :
    fully_reset (blastmidi_read [] initial_instance).2 :=
  c2_read_failure_fully_resets [] initial_instance rfl (by decide)

theorem c6_vlq_decoder_witness :
    read_variable_number [129, 64] initial_instance =
      (BLASTMIDI_OK, { initial_instance with cursor := initial_instance.cursor + (1 + 1) },
        vlq_value [129, 64] initial_instance.cursor (1 + 1)) :=
  (c6_vlq_decoder [129, 64] initial_instance).2.1 1 (by decide) (by decide)
    (by decide) (by decide)

theorem c7_read_header_checks_witness :
    read_header [77, 84, 104, 100, 0, 0, 0, 6, 0, 0, 0, 1, 0, 96] initial_instance =
      (BLASTMIDI_OK, header_success_state [77, 84, 104, 100, 0, 0, 0, 6, 0, 0, 0, 1, 0, 96]
        initial_instance) :=
  (c7_read_header_checks [77, 84, 104, 100, 0, 0, 0, 6, 0, 0, 0, 1, 0, 96] initial_instance
    (by decide)).1 (by unfold header_conditions; decide)

theorem c8_sysex_decoder_witness :
    (read_sysex_event [2, 171, 247] initial_instance).1 = BLASTMIDI_OK ∧
    (read_sysex_event [2, 171, 247] initial_instance).2.2 = some 0 ∧
    (read_sysex_event [2, 171, 247] initial_instance).2.1.cursor = 3 ∧
    (read_sysex_event [2, 171, 247] initial_instance).2.1.sysex_continuation = 0 ∧
    lookupEvent (read_sysex_event [2, 171, 247] initial_instance).2.1.heap 0 =
      some { track := -1, time := 0, type := BLASTMIDI_SYSEX_EVENT, subtype := 0,
             channel := -1, data := [171], data_size := 1,
             data_loc := DataLoc.inlinePool, end_of_sysex := 1,
             previous := none, next := none } := by
  have h := (c8_sysex_decoder [2, 171, 247] initial_instance
      { initial_instance with cursor := 1 } 2 (by decide)).2.2.2 (by decide) (by decide)
  exact h

theorem c9_mutation_api_misuse_witness :
    blastmidi_add_event (some c9_doc) 0 (some 0) 5 none =
      (BLASTMIDI_ALREADYADDED, some c9_doc) ∧
    blastmidi_add_event_to_beginning_of_track (some c9_doc) 0 (some 0) 5 =
      (BLASTMIDI_ALREADYADDED, some c9_doc) ∧
    blastmidi_add_event_to_end_of_track (some c9_doc) 0 (some 0) 5 =
      (BLASTMIDI_ALREADYADDED, some c9_doc) :=
  (c9_mutation_api_misuse c9_doc 0 5 0 none).2.2.1 c9_attached_event (by decide) (by decide)

theorem c10_zero_length_track_rejected_witness :
    read_track [77, 84, 114, 107, 0, 0, 0, 0] 5 initial_instance 0 =
      (BLASTMIDI_INVALIDCHUNK,
        { initial_instance with cursor := initial_instance.cursor + 8 }) :=
  c10_zero_length_track_rejected [77, 84, 114, 107, 0, 0, 0, 0] initial_instance 5 0
    (by decide) (by decide) (by decide) (by decide) (by decide) (by decide) (by decide)
    (by decide) (by decide)
